import Mathlib

/-!
# Verification of the llamagotchi agent core

A shallow embedding, in Lean 4, of the parts of the llamagotchi repository
that the specification's claims are about:

* `src/llm/context.ts` — token estimation, context-pressure classification,
  soft compaction, handoff summaries (`estimateTokens`, `getContextPressure`,
  `summarizeMessage`, `compactMessages`, `createHandoffSummary`);
* `src/agent/fsm.ts` — the FSM transition function (`transition` and its
  per-state handlers);
* `src/agent/session.ts` — the context-pressure check and hard compaction
  (`checkAndHandleContextPressure`, `performCompaction`);
* `src/db/messages.ts` — the background-task and session table operations
  (`createBackgroundTask`, `completeBackgroundTask`, `failBackgroundTask`,
  `startSession`, `endCurrentSession`);
* `src/server/routes.ts` — the external-injection HTTP handler (`handleInject`);
* the `sleep` tool.

Modelling conventions:

* JavaScript strings are modelled as Lean `String`; `s.length` and
  `s.slice(0, n)` become `String.length` and `String.take` (code points
  instead of UTF-16 units — the difference does not matter for any property
  proved here).
* JavaScript numbers are modelled exactly: integer-valued quantities as `Nat`
  (or `Int` where the source can go negative), and quantities that the source
  divides as `ℚ`, so threshold comparisons such as `ratio >= 0.7` are exact.
* `Date.now()` is an explicit `now : Nat` argument threaded to every function
  that calls it in the source; this makes the clock dependence of the source
  visible instead of hiding it.
* Effectful database / broadcast operations are modelled as pure functions on
  explicit table values (lists of rows), returning the updated table together
  with the values the source returns.
* JS truthiness tests on strings (`if (s)`) are `s ≠ ""`, on numbers `n ≠ 0`.
-/

set_option maxRecDepth 16384

/-! ## Chat messages (`src/llm/client.ts` interfaces) -/

/-- `ChatMessage.role` union type. -/
inductive Role
  | system
  | user
  | assistant
  | tool
deriving DecidableEq, Repr

/-- The `function` payload of a `ToolCall`. -/
structure ToolCallFunction where
  name : String
  arguments : String
deriving DecidableEq, Repr

/-- `ToolCall` (the constant discriminant `type: 'function'` is omitted). -/
structure ToolCall where
  id : String
  function : ToolCallFunction
deriving DecidableEq, Repr

/-- `ChatMessage`: optional fields become `Option`. -/
structure ChatMessage where
  role : Role
  content : String
  tool_calls : Option (List ToolCall) := none
  tool_call_id : Option String := none
  name : Option String := none
deriving DecidableEq, Repr

/-- `Usage` as returned by the model API. -/
structure Usage where
  prompt_tokens : Nat
  completion_tokens : Nat
  total_tokens : Nat
deriving DecidableEq, Repr

/-! ## Context manager (`src/llm/context.ts`) -/

/-- The four pressure levels of `getContextPressure`. -/
inductive PressureLevel
  | normal
  | soft
  | hard
  | overflow
deriving DecidableEq, Repr

/-- `estimateTokens(text) = Math.ceil(text.length / 4)`. -/
def estimateTokens (text : String) : Nat :=
  (text.length + 3) / 4

/-- `estimateMessageTokens`: content tokens, plus name/argument tokens of each
tool call, plus a fixed overhead of 4. -/
def estimateMessageTokens (message : ChatMessage) : Nat :=
  let tokens := estimateTokens message.content
  let tokens := tokens +
    (match message.tool_calls with
     | some tcs =>
       (tcs.map (fun tc => estimateTokens tc.function.name +
                           estimateTokens tc.function.arguments)).sum
     | none => 0)
  tokens + 4

/-- `estimateTotalTokens`: sum over the message list. -/
def estimateTotalTokens (messages : List ChatMessage) : Nat :=
  (messages.map estimateMessageTokens).sum

/-- Result record of `getContextPressure`. -/
structure ContextPressure where
  tokens : Nat
  ratio : ℚ
  level : PressureLevel
deriving DecidableEq, Repr

/-- `getContextPressure(messages)`; the configured context size
(`config.contextSize`, read through `getContextSize()`) is passed explicitly
as `C`.  The limit constants are `SOFT_LIMIT_RATIO = 0.7`,
`HARD_LIMIT_RATIO = 0.9`, `OVERFLOW_LIMIT_RATIO = 1.1`. -/
def getContextPressure (C : Nat) (messages : List ChatMessage) : ContextPressure :=
  let tokens := estimateTotalTokens messages
  let ratio : ℚ := (tokens : ℚ) / (C : ℚ)
  let level : PressureLevel :=
    if ratio ≥ 11/10 then .overflow
    else if ratio ≥ 9/10 then .hard
    else if ratio ≥ 7/10 then .soft
    else .normal
  { tokens := tokens, ratio := ratio, level := level }

/-- `summarizeMessage`: tool messages longer than 500 characters are replaced
by `[Summarized tool result: <first 200 chars>... (<N> chars total)]`. -/
def summarizeMessage (message : ChatMessage) : ChatMessage :=
  if message.role = .tool then
    if message.content.length > 500 then
      { message with
        content := "[Summarized tool result: " ++ message.content.take 200 ++
                   "... (" ++ Nat.repr message.content.length ++ " chars total)]" }
    else message
  else message

/-- `compactMessages`: the source loops `i` over the list and pushes
`summarizeMessage(messages[i])` when `i < messages.length - 10`, the original
message otherwise.  (The `if (!msg) continue` guard in the source is dead
code: a dense array has no holes.) -/
def compactMessages (messages : List ChatMessage) : List ChatMessage :=
  messages.mapIdx (fun i msg =>
    if i < messages.length - 10 then summarizeMessage msg else msg)

/-- `createHandoffSummary`: a fixed template around three counts, trimmed. -/
def createHandoffSummary (messages : List ChatMessage) : String :=
  let assistantMessages := messages.filter (fun m => m.role = .assistant)
  let toolMessages := messages.filter (fun m => m.role = .tool)
  ("\nSession Summary:\n- Total messages: " ++ Nat.repr messages.length ++
   "\n- Assistant turns: " ++ Nat.repr assistantMessages.length ++
   "\n- Tool uses: " ++ Nat.repr toolMessages.length ++
   "\n\nRecent context: The agent was engaged in conversation and tool use.\n").trim

example : estimateTokens "abcde" = 2 := by decide

example : (getContextPressure 100 [{ role := .user, content := "" }]).level = .normal := by
  have h : estimateTotalTokens [{ role := .user, content := "" }] = 4 := by decide
  simp only [getContextPressure, h]
  norm_num

example :
    (getContextPressure 10
      [{ role := .user, content := "aaaaaaaaaaaaaaaaaaaaaaaaaaaa" }]).level = .overflow := by
  have h : estimateTotalTokens
      [{ role := .user, content := "aaaaaaaaaaaaaaaaaaaaaaaaaaaa" }] = 11 := by decide
  simp only [getContextPressure, h]
  norm_num

/-! ## Soft compaction: helper lemmas -/

/-- `summarizeMessage` never changes a message's role. -/
theorem summarizeMessage_role (m : ChatMessage) :
    (summarizeMessage m).role = m.role := by
  unfold summarizeMessage
  split <;> [skip; rfl]
  split <;> rfl

/-- Length of the string `String.take` returns. -/
theorem string_length_take (s : String) (n : Nat) :
    (s.take n).length = min n s.length := by
  rw [String.take_eq, ← String.length_data s, ← String.length_data ⟨s.data.take n⟩]
  exact List.length_take n s.data

/-- A message that the 500-character test does not fire on passes through
`summarizeMessage` unchanged. -/
theorem summarizeMessage_of_not_long (m : ChatMessage)
    (h : ¬ m.content.length > 500) : summarizeMessage m = m := by
  simp [summarizeMessage, h]

/-- The summarised form of an over-long tool message is itself at most
444 characters long, provided the original length is below `10 ^ 16`
(every JavaScript string is: the language caps string length at `2 ^ 53 - 1`).
The fixed parts contribute `25 + 200 + 5 + 14 = 244` characters and the
decimal length numeral at most 16 more. -/
theorem summarizeMessage_content_length_le (m : ChatMessage)
    (hm : m.content.length < 10 ^ 16) :
    (summarizeMessage m).content.length ≤ max 444 m.content.length := by
  unfold summarizeMessage
  split
  · split
    · dsimp only
      have hrepr : (Nat.repr m.content.length).length ≤ 16 :=
        Nat.repr_length _ 16 (by norm_num) hm
      have htake : (m.content.take 200).length = 200 := by
        rw [string_length_take]
        omega
      simp only [String.length_append, htake]
      have h25 : ("[Summarized tool result: " : String).length = 25 := by decide
      have h5 : ("... (" : String).length = 5 := by decide
      have h14 : (" chars total)]" : String).length = 14 := by decide
      omega
    · exact Nat.le_max_right _ _
  · exact Nat.le_max_right _ _

/-- `summarizeMessage` is idempotent on messages whose content length is a
possible JavaScript string length. -/
theorem summarizeMessage_idem (m : ChatMessage)
    (hm : m.content.length < 10 ^ 16) :
    summarizeMessage (summarizeMessage m) = summarizeMessage m := by
  by_cases hlong : m.content.length > 500
  · by_cases hrole : m.role = .tool
    · apply summarizeMessage_of_not_long
      have hb := summarizeMessage_content_length_le m hm
      have hs : (summarizeMessage m).content.length ≤ 444 := by
        unfold summarizeMessage at hb ⊢
        rw [if_pos hrole, if_pos hlong] at hb ⊢
        dsimp only at hb ⊢
        have hrepr : (Nat.repr m.content.length).length ≤ 16 :=
          Nat.repr_length _ 16 (by norm_num) hm
        have htake : (m.content.take 200).length = 200 := by
          rw [string_length_take]
          omega
        simp only [String.length_append, htake]
        have h25 : ("[Summarized tool result: " : String).length = 25 := by decide
        have h5 : ("... (" : String).length = 5 := by decide
        have h14 : (" chars total)]" : String).length = 14 := by decide
        omega
      omega
    · have hs : summarizeMessage m = m := by
        unfold summarizeMessage
        rw [if_neg hrole]
      rw [hs, hs]
  · rw [summarizeMessage_of_not_long m hlong, summarizeMessage_of_not_long m hlong]

/-- Pointwise description of `compactMessages`. -/
theorem compactMessages_getElem (w : List ChatMessage) (i : Nat)
    (h : i < (compactMessages w).length) (h' : i < w.length) :
    (compactMessages w)[i] =
      if i < w.length - 10 then summarizeMessage w[i] else w[i] := by
  unfold compactMessages at h ⊢
  rw [List.getElem_mapIdx]

/-- `compactMessages` preserves length. -/
theorem compactMessages_length (w : List ChatMessage) :
    (compactMessages w).length = w.length := by
  unfold compactMessages
  exact List.length_mapIdx

/-! ## Claim C4: soft compaction -/

/-- **C4.** Soft compaction (`compactMessages`) is idempotent, preserves
length, role and order, leaves the last 10 messages unchanged, and among the
earlier messages rewrites exactly the tool-role messages whose content
exceeds 500 characters into the
`[Summarized tool result: <first 200 chars>... (<N> chars total)]` form,
passing every other message through unchanged.  The hypothesis
`m.content.length < 10 ^ 16` holds for every JavaScript string (the language
caps string length at `2 ^ 53 - 1 < 10 ^ 16`). -/
theorem compactMessages_spec (w : List ChatMessage)
    (hjs : ∀ m ∈ w, m.content.length < 10 ^ 16) :
    compactMessages (compactMessages w) = compactMessages w ∧
    (compactMessages w).length = w.length ∧
    (∀ i (h : i < w.length) (h' : i < (compactMessages w).length),
        ((compactMessages w).get ⟨i, h'⟩).role = (w.get ⟨i, h⟩).role) ∧
    (∀ i (h : i < w.length) (h' : i < (compactMessages w).length),
        w.length ≤ i + 10 → (compactMessages w).get ⟨i, h'⟩ = w.get ⟨i, h⟩) ∧
    (∀ i (h : i < w.length) (h' : i < (compactMessages w).length),
        i < w.length - 10 →
        ((w.get ⟨i, h⟩).role = .tool → (w.get ⟨i, h⟩).content.length > 500 →
            (compactMessages w).get ⟨i, h'⟩ =
              { w.get ⟨i, h⟩ with
                content := "[Summarized tool result: " ++
                  (w.get ⟨i, h⟩).content.take 200 ++ "... (" ++
                  Nat.repr (w.get ⟨i, h⟩).content.length ++ " chars total)]" }) ∧
        (((w.get ⟨i, h⟩).role = .tool → (w.get ⟨i, h⟩).content.length > 500 → False) →
            (compactMessages w).get ⟨i, h'⟩ = w.get ⟨i, h⟩)) := by
  have hlen := compactMessages_length w
  have hget : ∀ i (h : i < w.length) (h' : i < (compactMessages w).length),
      (compactMessages w).get ⟨i, h'⟩ =
        if i < w.length - 10 then summarizeMessage (w.get ⟨i, h⟩) else w.get ⟨i, h⟩ := by
    intro i h h'
    simpa using compactMessages_getElem w i h' h
  refine ⟨?_, hlen, ?_, ?_, ?_⟩
  · -- idempotence
    apply List.ext_getElem
    · rw [compactMessages_length, compactMessages_length]
    · intro i h1 h2
      have hw : i < w.length := by
        rw [compactMessages_length, compactMessages_length] at h1
        exact h1
      have hc : i < (compactMessages w).length := by rw [compactMessages_length]; exact hw
      have houter := compactMessages_getElem (compactMessages w) i h1 h2
      rw [houter]
      have hinner := compactMessages_getElem w i hc hw
      rw [hinner, hlen]
      by_cases hcut : i < w.length - 10
      · simp only [if_pos hcut]
        exact summarizeMessage_idem _ (hjs _ (List.getElem_mem hw))
      · simp only [if_neg hcut]
  · -- roles
    intro i h h'
    rw [hget i h h']
    split
    · exact summarizeMessage_role _
    · rfl
  · -- last 10 untouched
    intro i h h' hlast
    rw [hget i h h']
    rw [if_neg (by omega)]
  · -- earlier messages
    intro i h h' hcut
    rw [hget i h h', if_pos hcut]
    constructor
    · intro hrole hlong
      unfold summarizeMessage
      rw [if_pos hrole, if_pos hlong]
    · intro hnot
      by_cases hlong : (w.get ⟨i, h⟩).content.length > 500
      · by_cases hrole : (w.get ⟨i, h⟩).role = .tool
        · exact absurd hlong (by intro _; exact hnot hrole hlong)
        · unfold summarizeMessage
          rw [if_neg hrole]
      · exact summarizeMessage_of_not_long _ hlong

/-- A concrete 12-message window: one over-long tool message in the
summarised region followed by 11 short user messages. -/
def sampleWindow : List ChatMessage :=
  { role := .tool, content := String.mk (List.replicate 600 'x') } ::
  List.replicate 11 ({ role := .user, content := "hello" } : ChatMessage)

/-- Witness for **C4** at the concrete window `sampleWindow`. -/
theorem compactMessages_spec_witness :
    (∀ m ∈ sampleWindow, m.content.length < 10 ^ 16) ∧
    compactMessages (compactMessages sampleWindow) = compactMessages sampleWindow ∧
    (compactMessages sampleWindow).length = sampleWindow.length :=
  ⟨by decide, (compactMessages_spec sampleWindow (by decide)).1,
    (compactMessages_spec sampleWindow (by decide)).2.1⟩

/-! ## Agent FSM (`src/agent/fsm.ts`)

The transition function in the source is recursive: some branches re-enter
`transition` on a synthesized event (`mode_changed → autonomous_tick`,
post-turn routing, waiting-state interrupts).  Every such re-entry lands in
the `idle` state with a `user_message` or `autonomous_tick` event, whose
handlers do not recurse again, so the recursion depth is at most 2.  The
embedding makes this explicit: the per-state handlers take the function to
re-enter (`recurse`) as an argument, and `transition` is the two-level
unrolling `transitionStep (transitionStep (transitionStep transitionNone))`;
the bottom `transitionNone` is unreachable.

`Date.now()` is the explicit argument `now`; nested re-entries receive the
same `now` (the source would re-read the clock a few microseconds later). -/

/-- FSM state (`State` union). -/
inductive State
  | idle
  | streaming (streamId : Nat)
  | executing_tools (toolCalls : List ToolCall) (currentIndex : Nat)
  | waiting_delay (delayMs : Int)
  | waiting_step
deriving DecidableEq, Repr

/-- `state.type` discriminant string. -/
def State.tag : State → String
  | .idle => "idle"
  | .streaming _ => "streaming"
  | .executing_tools _ _ => "executing_tools"
  | .waiting_delay _ => "waiting_delay"
  | .waiting_step => "waiting_step"

/-- `mode` union. -/
inductive Mode
  | conversational
  | autonomous
deriving DecidableEq, Repr

/-- `delay : number | 'infinite'`. -/
inductive Delay
  | num (seconds : Int)
  | infinite
deriving DecidableEq, Repr

/-- The `currentResponse` accumulator. -/
structure CurrentResponse where
  content : String
  reasoning : String
deriving DecidableEq, Repr

/-- FSM `Context`. -/
structure Context where
  messages : List ChatMessage
  mode : Mode
  delay : Delay
  queuedUserMessages : List String
  consecutiveErrors : Nat
  turnNumber : Nat
  currentResponse : CurrentResponse
deriving DecidableEq, Repr

/-- `createContext(initialMessages = [])`. -/
def createContext (initialMessages : List ChatMessage := []) : Context :=
  { messages := initialMessages
    mode := .conversational
    delay := .num 5
    queuedUserMessages := []
    consecutiveErrors := 0
    turnNumber := 0
    currentResponse := { content := "", reasoning := "" } }

/-- FSM `Event` union. -/
inductive Event
  | user_message (content : String)
  | external_message (source : String) (content : String)
  | autonomous_tick
  | stream_start (streamId : Nat)
  | stream_chunk (content : Option String) (reasoning : Option String)
  | stream_end (message : ChatMessage) (usage : Option Usage)
  | stream_error (error : String)
  | tool_result (toolCallId : String) (result : String)
  | all_tools_complete
  | mode_changed (mode : Mode)
  | delay_changed (delay : Delay)
  | step
  | delay_elapsed
deriving DecidableEq, Repr

/-- FSM `Effect` union.  In the source the `update_context_pressure` level
field has type `'normal' | 'soft' | 'hard'` (no `overflow` variant); the
embedding reuses `PressureLevel`, and the transition function indeed never
constructs an `overflow` value.  `execute_tool`'s input object is kept as its
JSON text; the transition function never constructs this effect. -/
inductive Effect
  | start_stream
  | emit_token (streamId : Nat) (token : String)
  | emit_reasoning (streamId : Nat) (reasoning : String)
  | execute_tool (name : String) (input : String) (toolCallId : String)
  | save_message (source : String) (content : String)
      (toolName : Option String) (toolInput : Option String)
  | broadcast_message (source : String) (content : String)
      (toolName : Option String) (toolInput : Option String)
  | update_context_pressure (tokens : Nat) (maxTokens : Nat)
      (ratio : ℚ) (level : PressureLevel)
  | schedule_delay (delayMs : Int)
  | wait_for_step
  | check_context_pressure
  | log_error (error : String)
  | broadcast_fsm_state (fsmState : String) (turnNumber : Nat)
deriving DecidableEq, Repr

/-- `TransitionResult`. -/
structure TransitionResult where
  state : State
  context : Context
  effects : List Effect
deriving DecidableEq, Repr

/-- JS truthiness of an optional string: absent and `''` are falsy. -/
def jsTruthy (o : Option String) : Bool :=
  o.getD "" ≠ ""

/-- The autonomous nudge appended by `handleIdle` on a tick. -/
def autonomousNudge : String :=
  "You are running in autonomous mode. Continue pursuing your own goals.\n\nWhat would you like to do next?"

/-- The type of the re-entry point handed to the handlers (the source calls
`transition` itself at these sites). -/
abbrev Recurse := Nat → State → Context → Event → TransitionResult

/-- `handleIdle`.  The source's `default` branch contains a re-check for
`'user_message'`; it is dead code (that case is matched earlier), so the
default branch here just preserves the state. -/
def handleIdle (recurse : Recurse) (now : Nat) (context : Context)
    (event : Event) (effects : List Effect) : TransitionResult :=
  match event with
  | .user_message content =>
      let newContext := { context with
        messages := context.messages ++ [{ role := .user, content := content }]
        consecutiveErrors := 0
        turnNumber := context.turnNumber + 1
        currentResponse := { content := "", reasoning := "" } }
      let effects := effects ++
        [.save_message "user" content none none,
         .broadcast_message "user" content none none,
         .check_context_pressure,
         .start_stream]
      { state := .streaming now, context := newContext, effects := effects }
  | .external_message source content =>
      let formattedContent := "[External message from " ++ source ++ "]\n" ++ content
      let newContext := { context with
        messages := context.messages ++ [{ role := .user, content := formattedContent }]
        consecutiveErrors := 0
        turnNumber := context.turnNumber + 1
        currentResponse := { content := "", reasoning := "" } }
      let effects := effects ++
        [.save_message ("external:" ++ source) content none none,
         .broadcast_message ("external:" ++ source) content none none,
         .check_context_pressure,
         .start_stream]
      { state := .streaming now, context := newContext, effects := effects }
  | .autonomous_tick =>
      if context.mode ≠ .autonomous then
        { state := .idle, context := context, effects := effects }
      else
        match context.queuedUserMessages with
        | content :: rest =>
            let newContext := { context with
              messages := context.messages ++ [{ role := .user, content := content }]
              queuedUserMessages := rest
              consecutiveErrors := 0
              turnNumber := context.turnNumber + 1
              currentResponse := { content := "", reasoning := "" } }
            let effects := effects ++
              [.save_message "user" content none none,
               .broadcast_message "user" content none none,
               .check_context_pressure,
               .start_stream]
            { state := .streaming now, context := newContext, effects := effects }
        | [] =>
            let newContext := { context with
              messages := context.messages ++ [{ role := .user, content := autonomousNudge }]
              turnNumber := context.turnNumber + 1
              currentResponse := { content := "", reasoning := "" } }
            let effects := effects ++ [.check_context_pressure, .start_stream]
            { state := .streaming now, context := newContext, effects := effects }
  | .mode_changed mode =>
      let newContext := { context with mode := mode }
      if mode = .autonomous then
        recurse now .idle newContext .autonomous_tick
      else
        { state := .idle, context := newContext, effects := effects }
  | .delay_changed delay =>
      { state := .idle, context := { context with delay := delay }, effects := effects }
  | _ =>
      { state := .idle, context := context, effects := effects }

/-- `transitionToPostTurn`. -/
def transitionToPostTurn (recurse : Recurse) (now : Nat) (context : Context)
    (effects : List Effect) : TransitionResult :=
  match context.queuedUserMessages with
  | content :: rest =>
      recurse now .idle { context with queuedUserMessages := rest }
        (.user_message content)
  | [] =>
      if context.mode = .conversational then
        { state := .idle, context := context, effects := effects }
      else
        match context.delay with
        | .infinite =>
            { state := .waiting_step, context := context,
              effects := effects ++ [.wait_for_step] }
        | .num d =>
            if d > 0 then
              { state := .waiting_delay (d * 1000), context := context,
                effects := effects ++ [.schedule_delay (d * 1000)] }
            else
              recurse now .idle context .autonomous_tick

/-- `handleStreaming`. -/
def handleStreaming (recurse : Recurse) (now : Nat) (streamId : Nat)
    (context : Context) (event : Event) (effects : List Effect) : TransitionResult :=
  match event with
  | .stream_chunk content reasoning =>
      let newResponse := context.currentResponse
      let newResponse1 :=
        if jsTruthy content then
          { newResponse with content := newResponse.content ++ content.getD "" }
        else newResponse
      let effects1 :=
        if jsTruthy content then effects ++ [.emit_token streamId (content.getD "")]
        else effects
      let newResponse2 :=
        if jsTruthy reasoning then
          { newResponse1 with reasoning := newResponse1.reasoning ++ reasoning.getD "" }
        else newResponse1
      let effects2 :=
        if jsTruthy reasoning then effects1 ++ [.emit_reasoning streamId (reasoning.getD "")]
        else effects1
      { state := .streaming streamId,
        context := { context with currentResponse := newResponse2 },
        effects := effects2 }
  | .stream_end message usage =>
      let newContext := { context with
        messages := context.messages ++ [message]
        consecutiveErrors := 0 }
      let effects :=
        if context.currentResponse.reasoning ≠ "" then -- JS truthiness
          effects ++
            [.save_message "reasoning" context.currentResponse.reasoning none none,
             .broadcast_message "reasoning" context.currentResponse.reasoning none none]
        else effects
      let effects :=
        if message.content ≠ "" then
          effects ++
            [.save_message "assistant" message.content none none,
             .broadcast_message "assistant" message.content none none]
        else effects
      let effects :=
        match usage with
        | some u =>
            let maxTokens : Nat := 128000 -- hardcoded; "Will be injected by executor"
            let ratio : ℚ := (u.prompt_tokens : ℚ) / (maxTokens : ℚ)
            let level : PressureLevel :=
              if ratio ≥ 9/10 then .hard
              else if ratio ≥ 7/10 then .soft
              else .normal
            effects ++ [.update_context_pressure u.prompt_tokens maxTokens ratio level]
        | none => effects
      match message.tool_calls with
      | some tcs =>
          if tcs.length > 0 then
            { state := .executing_tools tcs 0, context := newContext, effects := effects }
          else
            transitionToPostTurn recurse now newContext effects
      | none =>
          transitionToPostTurn recurse now newContext effects
  | .stream_error error =>
      let newConsecutiveErrors := context.consecutiveErrors + 1
      let effects := effects ++
        [.log_error error,
         .save_message "system" ("Error: " ++ error) none none,
         .broadcast_message "system" ("Error: " ++ error) none none]
      if newConsecutiveErrors < 3 then
        let recoveryPrompt :=
          "[System: The previous response caused an error: \"" ++ error ++
          "\". Please try again with a simpler approach.]"
        let newContext := { context with
          messages := context.messages ++ [{ role := .user, content := recoveryPrompt }]
          consecutiveErrors := newConsecutiveErrors
          currentResponse := { content := "", reasoning := "" } }
        { state := .streaming now, context := newContext,
          effects := effects ++ [.start_stream] }
      else
        let pauseMsg := "Too many consecutive errors (" ++ Nat.repr newConsecutiveErrors ++
          "). Pausing. Send a message to resume."
        { state := .idle,
          context := { context with consecutiveErrors := 0 },
          effects := effects ++
            [.save_message "system" pauseMsg none none,
             .broadcast_message "system" pauseMsg none none] }
  | .user_message content =>
      { state := .streaming streamId,
        context := { context with
          queuedUserMessages := context.queuedUserMessages ++ [content] },
        effects := effects }
  | .mode_changed mode =>
      { state := .streaming streamId, context := { context with mode := mode },
        effects := effects }
  | .delay_changed delay =>
      { state := .streaming streamId, context := { context with delay := delay },
        effects := effects }
  | _ =>
      { state := .streaming streamId, context := context, effects := effects }

/-- `handleExecutingTools` (no re-entry sites). -/
def handleExecutingTools (now : Nat) (toolCalls : List ToolCall) (currentIndex : Nat)
    (context : Context) (event : Event) (effects : List Effect) : TransitionResult :=
  match event with
  | .tool_result toolCallId result =>
      let newContext := { context with
        messages := context.messages ++
          [{ role := .tool, content := result, tool_call_id := some toolCallId }] }
      let nextIndex := currentIndex + 1
      if nextIndex < toolCalls.length then
        { state := .executing_tools toolCalls nextIndex, context := newContext,
          effects := effects }
      else
        { state := .streaming now,
          context := { newContext with currentResponse := { content := "", reasoning := "" } },
          effects := effects ++ [.check_context_pressure, .start_stream] }
  | .user_message content =>
      { state := .executing_tools toolCalls currentIndex,
        context := { context with
          queuedUserMessages := context.queuedUserMessages ++ [content] },
        effects := effects }
  | .mode_changed mode =>
      { state := .executing_tools toolCalls currentIndex,
        context := { context with mode := mode }, effects := effects }
  | .delay_changed delay =>
      { state := .executing_tools toolCalls currentIndex,
        context := { context with delay := delay }, effects := effects }
  | _ =>
      { state := .executing_tools toolCalls currentIndex, context := context,
        effects := effects }

/-- `handleWaitingDelay`. -/
def handleWaitingDelay (recurse : Recurse) (now : Nat) (delayMs : Int)
    (context : Context) (event : Event) (effects : List Effect) : TransitionResult :=
  match event with
  | .delay_elapsed =>
      recurse now .idle context .autonomous_tick
  | .user_message content =>
      -- user message interrupts the delay: processed immediately as in idle
      recurse now .idle context (.user_message content)
  | .mode_changed mode =>
      if mode = .conversational then
        { state := .idle, context := { context with mode := mode }, effects := effects }
      else
        { state := .waiting_delay delayMs, context := { context with mode := mode },
          effects := effects }
  | .delay_changed delay =>
      { state := .waiting_delay delayMs, context := { context with delay := delay },
        effects := effects }
  | _ =>
      { state := .waiting_delay delayMs, context := context, effects := effects }

/-- `handleWaitingStep`. -/
def handleWaitingStep (recurse : Recurse) (now : Nat) (context : Context)
    (event : Event) (effects : List Effect) : TransitionResult :=
  match event with
  | .step =>
      recurse now .idle context .autonomous_tick
  | .user_message content =>
      recurse now .idle context (.user_message content)
  | .mode_changed mode =>
      if mode = .conversational then
        { state := .idle, context := { context with mode := mode }, effects := effects }
      else
        { state := .waiting_step, context := { context with mode := mode },
          effects := effects }
  | .delay_changed delay =>
      let newContext := { context with delay := delay }
      match delay with
      | .num d =>
          { state := .waiting_delay (d * 1000), context := newContext,
            effects := effects ++ [.schedule_delay (d * 1000)] }
      | .infinite =>
          { state := .waiting_step, context := newContext, effects := effects }
  | _ =>
      { state := .waiting_step, context := context, effects := effects }

/-- The tail of `transition`: push `broadcast_fsm_state` onto the result when
the state tag changed (`result.state.type !== state.type`). -/
def applyTagBroadcast (state : State) (result : TransitionResult) : TransitionResult :=
  if result.state.tag ≠ state.tag then
    { result with effects := result.effects ++
        [.broadcast_fsm_state result.state.tag result.context.turnNumber] }
  else result

/-- One level of `transition`: dispatch on the state, then push
`broadcast_fsm_state` when the state tag changed. -/
def transitionStep (recurse : Recurse) (now : Nat) (state : State)
    (context : Context) (event : Event) : TransitionResult :=
  let effects : List Effect := []
  let result :=
    match state with
    | .idle => handleIdle recurse now context event effects
    | .streaming streamId => handleStreaming recurse now streamId context event effects
    | .executing_tools toolCalls currentIndex =>
        handleExecutingTools now toolCalls currentIndex context event effects
    | .waiting_delay delayMs => handleWaitingDelay recurse now delayMs context event effects
    | .waiting_step => handleWaitingStep recurse now context event effects
  applyTagBroadcast state result

/-- Unreachable bottom of the two-level unrolling (see the section comment:
re-entries go to `idle` with `user_message`/`autonomous_tick`, which never
re-enter again). -/
def transitionNone : Recurse :=
  fun _ state context _ => { state := state, context := context, effects := [] }

/-- `transition` at re-entry depth 2. -/
def transition1 : Recurse := transitionStep transitionNone

/-- `transition` at re-entry depth 1. -/
def transition2 : Recurse := transitionStep transition1

/-- The pure FSM transition function
`transition(state, context, event) → { state', context', effects }`, with the
source's `Date.now()` reads made explicit as the argument `now`. -/
def transition (now : Nat) (state : State) (context : Context)
    (event : Event) : TransitionResult :=
  transitionStep transition2 now state context event

example :
    (transition 7 .idle (createContext []) (.user_message "hi")).state = .streaming 7 := by
  decide

example :
    (transition 7 .idle (createContext []) (.user_message "hi")).effects =
      [.save_message "user" "hi" none none,
       .broadcast_message "user" "hi" none none,
       .check_context_pressure,
       .start_stream,
       .broadcast_fsm_state "streaming" 1] := by
  decide

/-! ## Claim C1: determinism of `transition`

The source computes the `streamId` of every new `streaming` state by calling
`Date.now()` inside `transition` (the `now` argument of the embedding).  The
clock value reaches only that `streamId`; context and effects are built from
`(state, context, event)` alone.  `scrub` erases the clock-derived field so
the remainder can be compared. -/

/-- Erase the clock-derived `streamId`. -/
def State.scrub : State → State
  | .streaming _ => .streaming 0
  | s => s

/-- Erase the clock-derived `streamId` of the result state. -/
def TransitionResult.scrub (r : TransitionResult) : TransitionResult :=
  { r with state := r.state.scrub }

/-- Replay of a recorded event sequence; each event carries the clock value
(`Date.now()`) at which it was delivered. -/
def replay (events : List (Nat × Event)) (s : State) (c : Context) :
    State × Context :=
  events.foldl
    (fun sc ne =>
      let r := transition ne.1 sc.1 sc.2 ne.2
      (r.state, r.context))
    (s, c)

theorem State.tag_scrub (s : State) : s.scrub.tag = s.tag := by
  cases s <;> rfl

theorem TransitionResult.scrub_state (r : TransitionResult) :
    r.scrub.state = r.state.scrub := rfl

theorem TransitionResult.scrub_context (r : TransitionResult) :
    r.scrub.context = r.context := rfl

theorem TransitionResult.scrub_effects (r : TransitionResult) :
    r.scrub.effects = r.effects := rfl

/-- Scrub-equal results stay scrub-equal through the tag-change broadcast. -/
theorem applyTagBroadcast_scrub (s : State) (r₁ r₂ : TransitionResult)
    (h : r₁.scrub = r₂.scrub) :
    (applyTagBroadcast s r₁).scrub = (applyTagBroadcast s r₂).scrub := by
  have htag : r₁.state.tag = r₂.state.tag := by
    rw [← State.tag_scrub r₁.state, ← State.tag_scrub r₂.state,
      ← TransitionResult.scrub_state, ← TransitionResult.scrub_state, h]
  have hctx : r₁.context = r₂.context := by
    rw [← TransitionResult.scrub_context r₁, ← TransitionResult.scrub_context r₂, h]
  have heff : r₁.effects = r₂.effects := by
    rw [← TransitionResult.scrub_effects r₁, ← TransitionResult.scrub_effects r₂, h]
  unfold applyTagBroadcast
  rw [htag, hctx, heff]
  split
  · simp only [TransitionResult.scrub]
    rw [show r₁.state.scrub = r₂.state.scrub from congrArg TransitionResult.state h]
  · exact h

/-- Agreement of two re-entry functions up to the clock: same state (scrubbed),
context, and effects, on equal inputs modulo the clock value. -/
def RecAgree (R₁ R₂ : Recurse) : Prop :=
  ∀ n₁ n₂ s c e, (R₁ n₁ s c e).scrub = (R₂ n₂ s c e).scrub

theorem recAgree_transitionNone : RecAgree transitionNone transitionNone := by
  intro n₁ n₂ s c e
  rfl

theorem handleIdle_agree (R₁ R₂ : Recurse) (hR : RecAgree R₁ R₂)
    (n₁ n₂ : Nat) (c : Context) (e : Event) (fx : List Effect) :
    (handleIdle R₁ n₁ c e fx).scrub = (handleIdle R₂ n₂ c e fx).scrub := by
  cases e <;> simp only [handleIdle] <;> (repeat' split) <;>
    first
      | rfl
      | exact hR _ _ _ _ _

theorem transitionToPostTurn_agree (R₁ R₂ : Recurse) (hR : RecAgree R₁ R₂)
    (n₁ n₂ : Nat) (c : Context) (fx : List Effect) :
    (transitionToPostTurn R₁ n₁ c fx).scrub = (transitionToPostTurn R₂ n₂ c fx).scrub := by
  unfold transitionToPostTurn
  (repeat' split) <;>
    first
      | rfl
      | exact hR _ _ _ _ _

theorem handleStreaming_agree (R₁ R₂ : Recurse) (hR : RecAgree R₁ R₂)
    (n₁ n₂ sid : Nat) (c : Context) (e : Event) (fx : List Effect) :
    (handleStreaming R₁ n₁ sid c e fx).scrub = (handleStreaming R₂ n₂ sid c e fx).scrub := by
  cases e <;> simp only [handleStreaming] <;> (repeat' split) <;>
    first
      | rfl
      | exact hR _ _ _ _ _
      | exact transitionToPostTurn_agree R₁ R₂ hR n₁ n₂ _ _

theorem handleWaitingDelay_agree (R₁ R₂ : Recurse) (hR : RecAgree R₁ R₂)
    (n₁ n₂ : Nat) (d : Int) (c : Context) (e : Event) (fx : List Effect) :
    (handleWaitingDelay R₁ n₁ d c e fx).scrub = (handleWaitingDelay R₂ n₂ d c e fx).scrub := by
  cases e <;> simp only [handleWaitingDelay] <;> (repeat' split) <;>
    first
      | rfl
      | exact hR _ _ _ _ _

theorem handleWaitingStep_agree (R₁ R₂ : Recurse) (hR : RecAgree R₁ R₂)
    (n₁ n₂ : Nat) (c : Context) (e : Event) (fx : List Effect) :
    (handleWaitingStep R₁ n₁ c e fx).scrub = (handleWaitingStep R₂ n₂ c e fx).scrub := by
  cases e <;> simp only [handleWaitingStep] <;> (repeat' split) <;>
    first
      | rfl
      | exact hR _ _ _ _ _

theorem handleExecutingTools_agree (n₁ n₂ : Nat) (tcs : List ToolCall) (i : Nat)
    (c : Context) (e : Event) (fx : List Effect) :
    (handleExecutingTools n₁ tcs i c e fx).scrub =
      (handleExecutingTools n₂ tcs i c e fx).scrub := by
  cases e <;> simp only [handleExecutingTools] <;> (repeat' split) <;> rfl

theorem transitionStep_agree (R₁ R₂ : Recurse) (hR : RecAgree R₁ R₂) :
    RecAgree (transitionStep R₁) (transitionStep R₂) := by
  intro n₁ n₂ s c e
  unfold transitionStep
  cases s
  case idle =>
    exact applyTagBroadcast_scrub _ _ _ (handleIdle_agree R₁ R₂ hR n₁ n₂ c e [])
  case streaming sid =>
    exact applyTagBroadcast_scrub _ _ _ (handleStreaming_agree R₁ R₂ hR n₁ n₂ sid c e [])
  case executing_tools tcs i =>
    exact applyTagBroadcast_scrub _ _ _ (handleExecutingTools_agree n₁ n₂ tcs i c e [])
  case waiting_delay d =>
    exact applyTagBroadcast_scrub _ _ _ (handleWaitingDelay_agree R₁ R₂ hR n₁ n₂ d c e [])
  case waiting_step =>
    exact applyTagBroadcast_scrub _ _ _ (handleWaitingStep_agree R₁ R₂ hR n₁ n₂ c e [])

/-- Apart from the `streamId`, the transition result does not depend on the
clock. -/
theorem transition_scrub_clock (n₁ n₂ : Nat) (s : State) (c : Context) (e : Event) :
    (transition n₁ s c e).scrub = (transition n₂ s c e).scrub :=
  transitionStep_agree _ _
    (transitionStep_agree _ _
      (transitionStep_agree _ _ recAgree_transitionNone))
    n₁ n₂ s c e

theorem scrubProj (X Y : TransitionResult) (h : X.scrub = Y.scrub) :
    X.state.scrub = Y.state.scrub ∧ X.context = Y.context :=
  ⟨by rw [← TransitionResult.scrub_state, ← TransitionResult.scrub_state, h],
   by rw [← TransitionResult.scrub_context X, ← TransitionResult.scrub_context Y, h]⟩

theorem applyTagBroadcast_state (s : State) (r : TransitionResult) :
    (applyTagBroadcast s r).state = r.state := by
  unfold applyTagBroadcast
  split <;> rfl

theorem applyTagBroadcast_context (s : State) (r : TransitionResult) :
    (applyTagBroadcast s r).context = r.context := by
  unfold applyTagBroadcast
  split <;> rfl

theorem recAgree_transition2 : RecAgree transition2 transition2 := by
  unfold transition2 transition1
  exact transitionStep_agree _ _ (transitionStep_agree _ _ recAgree_transitionNone)

/-- Scrub-equal states are equal unless both are `streaming`. -/
theorem scrub_cases (s₁ s₂ : State) (h : s₁.scrub = s₂.scrub) :
    s₁ = s₂ ∨ ∃ a b, s₁ = .streaming a ∧ s₂ = .streaming b := by
  cases s₁ <;> cases s₂ <;> simp_all [State.scrub]

/-- `handleStreaming` congruence across different stream ids: the result state
(scrubbed) and context do not depend on the incoming `streamId` (which reaches
only the `emit_token` / `emit_reasoning` effects). -/
theorem handleStreaming_congr (R₁ R₂ : Recurse) (hA : RecAgree R₁ R₂)
    (n₁ n₂ sid₁ sid₂ : Nat) (c : Context) (e : Event) (fx : List Effect) :
    (handleStreaming R₁ n₁ sid₁ c e fx).state.scrub =
      (handleStreaming R₂ n₂ sid₂ c e fx).state.scrub ∧
    (handleStreaming R₁ n₁ sid₁ c e fx).context =
      (handleStreaming R₂ n₂ sid₂ c e fx).context := by
  cases e <;> simp only [handleStreaming] <;> (repeat' split) <;>
    first
      | exact ⟨rfl, rfl⟩
      | exact ⟨rfl, trivial⟩
      | trivial
      | exact scrubProj _ _ (hA _ _ _ _ _)
      | exact scrubProj _ _ (transitionToPostTurn_agree R₁ R₂ hA n₁ n₂ _ _)

/-- Transition congruence: from scrub-equal states (and any two clock values),
the resulting states are scrub-equal and the resulting contexts are equal. -/
theorem transition_congr (n₁ n₂ : Nat) (s₁ s₂ : State) (c : Context) (e : Event)
    (hs : s₁.scrub = s₂.scrub) :
    (transition n₁ s₁ c e).state.scrub = (transition n₂ s₂ c e).state.scrub ∧
    (transition n₁ s₁ c e).context = (transition n₂ s₂ c e).context := by
  rcases scrub_cases s₁ s₂ hs with heq | ⟨a, b, h₁, h₂⟩
  · subst heq
    exact scrubProj _ _ (transition_scrub_clock n₁ n₂ s₁ c e)
  · subst h₁; subst h₂
    have h := handleStreaming_congr transition2 transition2 recAgree_transition2
      n₁ n₂ a b c e []
    constructor
    · simp only [transition, transitionStep, applyTagBroadcast_state]
      exact h.1
    · simp only [transition, transitionStep, applyTagBroadcast_context]
      exact h.2

/-- Replay congruence: two replays of the same event sequence, recorded at
different clock values and started from scrub-equal states, end with the same
context and scrub-equal states. -/
theorem replay_congr (es₁ : List (Nat × Event)) :
    ∀ es₂ : List (Nat × Event), es₁.map Prod.snd = es₂.map Prod.snd →
    ∀ s₁ s₂ c, s₁.scrub = s₂.scrub →
      (replay es₁ s₁ c).1.scrub = (replay es₂ s₂ c).1.scrub ∧
      (replay es₁ s₁ c).2 = (replay es₂ s₂ c).2 := by
  induction es₁ with
  | nil =>
      intro es₂ h s₁ s₂ c hs
      have : es₂ = [] := by
        cases es₂ with
        | nil => rfl
        | cons hd tl => simp at h
      subst this
      exact ⟨hs, rfl⟩
  | cons hd tl ih =>
      intro es₂ h s₁ s₂ c hs
      cases es₂ with
      | nil => simp at h
      | cons hd₂ tl₂ =>
          simp only [List.map_cons, List.cons.injEq] at h
          obtain ⟨hhd, htl⟩ := h
          simp only [replay, List.foldl_cons]
          rw [hhd]
          have hstep := transition_congr hd.1 hd₂.1 s₁ s₂ c hd₂.2 hs
          rw [hstep.2]
          exact ih tl₂ htl _ _ _ hstep.1

/-! ### C1: claim theorems -/

/-- **C1 (counterexample).** `transition` is *not* deterministic in
`(state, context, event)` alone: the source reads `Date.now()` for the new
`streamId`, so the same idle-state user message produces different results at
clock values 0 and 1 (the resulting `streaming` states carry different ids). -/
theorem transition_not_deterministic :
    transition 0 .idle (createContext []) (.user_message "hi") ≠
      transition 1 .idle (createContext []) (.user_message "hi") := by
  decide

/-- **C1 (amended).** `transition` is deterministic and free of side effects
up to the clock-derived `streamId`: for any two clock values it returns the
same context, the same effect list, and the same state apart from the
`streamId` field; consequently replaying a recorded event sequence (whatever
clock values the replay happens at) reproduces the final context exactly and
the final state up to `streamId`. -/
theorem transition_pure_up_to_streamId :
    (∀ n₁ n₂ s c e, (transition n₁ s c e).scrub = (transition n₂ s c e).scrub) ∧
    (∀ es₁ es₂ : List (Nat × Event), es₁.map Prod.snd = es₂.map Prod.snd →
      ∀ s c, (replay es₁ s c).1.scrub = (replay es₂ s c).1.scrub ∧
             (replay es₁ s c).2 = (replay es₂ s c).2) :=
  ⟨fun n₁ n₂ s c e => transition_scrub_clock n₁ n₂ s c e,
   fun es₁ es₂ h s c => replay_congr es₁ es₂ h s s c rfl⟩

/-- Witness for **C1 (amended)** at a concrete replayed sequence: the same
two-event sequence replayed at clock values (0, 1) and (5, 9) gives the same
final context and a scrub-equal final state. -/
theorem transition_pure_up_to_streamId_witness :
    [(0, Event.user_message "hi"), (1, Event.stream_error "boom")].map Prod.snd =
      [(5, Event.user_message "hi"), (9, Event.stream_error "boom")].map Prod.snd ∧
    ((replay [(0, Event.user_message "hi"), (1, Event.stream_error "boom")]
        .idle (createContext [])).1.scrub =
      (replay [(5, Event.user_message "hi"), (9, Event.stream_error "boom")]
        .idle (createContext [])).1.scrub ∧
     (replay [(0, Event.user_message "hi"), (1, Event.stream_error "boom")]
        .idle (createContext [])).2 =
      (replay [(5, Event.user_message "hi"), (9, Event.stream_error "boom")]
        .idle (createContext [])).2) :=
  ⟨by decide,
   transition_pure_up_to_streamId.2
     [(0, Event.user_message "hi"), (1, Event.stream_error "boom")]
     [(5, Event.user_message "hi"), (9, Event.stream_error "boom")]
     (by decide) .idle (createContext [])⟩

/-! ## Evaluation lemmas for the re-entry levels -/

/-- Context produced by a re-entered idle `user_message` (depth-1 call). -/
theorem transition2_idle_user_message_context (now : Nat) (c : Context) (m : String) :
    (transition2 now .idle c (.user_message m)).context =
      { c with
        messages := c.messages ++ [{ role := .user, content := m }]
        consecutiveErrors := 0
        turnNumber := c.turnNumber + 1
        currentResponse := { content := "", reasoning := "" } } := by
  unfold transition2 transitionStep
  rw [applyTagBroadcast_context]
  simp [handleIdle]

/-- A re-entered idle `autonomous_tick` (depth-1 call) keeps a zero error
counter at zero. -/
theorem transition2_idle_tick_errors (now : Nat) (c : Context)
    (hc : c.consecutiveErrors = 0) :
    (transition2 now .idle c .autonomous_tick).context.consecutiveErrors = 0 := by
  unfold transition2 transitionStep
  rw [applyTagBroadcast_context]
  simp only [handleIdle]
  repeat' split
  all_goals simp_all

/-- Post-turn routing keeps a zero error counter at zero. -/
theorem transitionToPostTurn_errors (now : Nat) (c : Context) (fx : List Effect)
    (hc : c.consecutiveErrors = 0) :
    (transitionToPostTurn transition2 now c fx).context.consecutiveErrors = 0 := by
  unfold transitionToPostTurn
  repeat' split
  · rw [transition2_idle_user_message_context]
  · exact hc
  · exact hc
  · exact hc
  · exact transition2_idle_tick_errors now c hc

/-! ## Claim C6: the stream-error retry ladder -/

/-- The recovery prompt appended before a retry. -/
def recoveryPromptFor (err : String) : String :=
  "[System: The previous response caused an error: \"" ++ err ++
  "\". Please try again with a simpler approach.]"

/-- The pause notice persisted when the error counter reaches `n`. -/
def pauseNoticeFor (n : Nat) : String :=
  "Too many consecutive errors (" ++ Nat.repr n ++ "). Pausing. Send a message to resume."

example :
    (transition 3 (.streaming 1) (createContext []) (.stream_error "boom")).effects =
      [.log_error "boom",
       .save_message "system" "Error: boom" none none,
       .broadcast_message "system" "Error: boom" none none,
       .start_stream] := by
  decide

/-- **C6.** In the `streaming` state, a `stream_error` increments
`consecutive_errors` and persists+broadcasts a `system` error message; while
the incremented counter is below 3 the recovery prompt is appended and
`start_stream` is emitted again; otherwise (reached exactly at the third
consecutive error) a pause notice is persisted and broadcast, the counter
resets to 0, and the FSM returns to `idle` — so from a fresh counter, three
consecutive `stream_error` events produce exactly two retries and then a
pause.  A successful `stream_end` resets the counter to 0. -/
theorem streaming_stream_error_spec (now sid : Nat) (c : Context) (err : String) :
    (Effect.save_message "system" ("Error: " ++ err) none none ∈
        (transition now (.streaming sid) c (.stream_error err)).effects ∧
     Effect.broadcast_message "system" ("Error: " ++ err) none none ∈
        (transition now (.streaming sid) c (.stream_error err)).effects) ∧
    (c.consecutiveErrors + 1 < 3 →
       (transition now (.streaming sid) c (.stream_error err)).state = .streaming now ∧
       (transition now (.streaming sid) c (.stream_error err)).context.consecutiveErrors =
         c.consecutiveErrors + 1 ∧
       (transition now (.streaming sid) c (.stream_error err)).context.messages =
         c.messages ++ [{ role := .user, content := recoveryPromptFor err }] ∧
       Effect.start_stream ∈ (transition now (.streaming sid) c (.stream_error err)).effects) ∧
    (¬ c.consecutiveErrors + 1 < 3 →
       (transition now (.streaming sid) c (.stream_error err)).state = .idle ∧
       (transition now (.streaming sid) c (.stream_error err)).context.consecutiveErrors = 0 ∧
       Effect.save_message "system" (pauseNoticeFor (c.consecutiveErrors + 1)) none none ∈
         (transition now (.streaming sid) c (.stream_error err)).effects ∧
       Effect.broadcast_message "system" (pauseNoticeFor (c.consecutiveErrors + 1)) none none ∈
         (transition now (.streaming sid) c (.stream_error err)).effects ∧
       Effect.start_stream ∉ (transition now (.streaming sid) c (.stream_error err)).effects) ∧
    (∀ msg usage,
       (transition now (.streaming sid) c (.stream_end msg usage)).context.consecutiveErrors = 0) := by
  refine ⟨?_, ?_, ?_, ?_⟩
  · simp only [transition, transitionStep, handleStreaming, applyTagBroadcast,
      recoveryPromptFor, pauseNoticeFor, State.tag]
    split <;> simp
  · intro hlt
    simp only [transition, transitionStep, handleStreaming, applyTagBroadcast,
      recoveryPromptFor, pauseNoticeFor, State.tag, if_pos hlt]
    simp
  · intro hge
    simp only [transition, transitionStep, handleStreaming, applyTagBroadcast,
      recoveryPromptFor, pauseNoticeFor, State.tag, if_neg hge]
    simp
  · intro msg usage
    unfold transition transitionStep
    rw [applyTagBroadcast_context]
    simp only [handleStreaming]
    repeat' split
    all_goals first
      | rfl
      | exact transitionToPostTurn_errors now _ _ (by rfl)

/-- Witness for **C6**: the first error from a fresh counter retries; an error
on a counter at 2 pauses. -/
theorem streaming_stream_error_spec_witness :
    ((createContext []).consecutiveErrors + 1 < 3 ∧
     (transition 4 (.streaming 2) (createContext []) (.stream_error "boom")).state =
       .streaming 4) ∧
    (¬ ({ createContext [] with consecutiveErrors := 2 } : Context).consecutiveErrors + 1 < 3 ∧
     (transition 4 (.streaming 2) { createContext [] with consecutiveErrors := 2 }
        (.stream_error "boom")).state = .idle) :=
  ⟨⟨by decide,
    ((streaming_stream_error_spec 4 2 (createContext []) "boom").2.1 (by decide)).1⟩,
   ⟨by decide,
    ((streaming_stream_error_spec 4 2 { createContext [] with consecutiveErrors := 2 }
      "boom").2.2.1 (by decide)).1⟩⟩

/-! ## Stream-end decomposition (shared by C7 and C8) -/

/-- Context update performed by `stream_end`. -/
def streamEndContext (c : Context) (message : ChatMessage) : Context :=
  { c with messages := c.messages ++ [message], consecutiveErrors := 0 }

/-- Effects accumulated by `stream_end` before routing. -/
def streamEndEffects (c : Context) (message : ChatMessage) (usage : Option Usage) :
    List Effect :=
  let effects : List Effect := []
  let effects :=
    if c.currentResponse.reasoning ≠ "" then
      effects ++
        [.save_message "reasoning" c.currentResponse.reasoning none none,
         .broadcast_message "reasoning" c.currentResponse.reasoning none none]
    else effects
  let effects :=
    if message.content ≠ "" then
      effects ++
        [.save_message "assistant" message.content none none,
         .broadcast_message "assistant" message.content none none]
    else effects
  match usage with
  | some u =>
      let maxTokens : Nat := 128000
      let ratio : ℚ := (u.prompt_tokens : ℚ) / (maxTokens : ℚ)
      let level : PressureLevel :=
        if ratio ≥ 9/10 then .hard
        else if ratio ≥ 7/10 then .soft
        else .normal
      effects ++ [.update_context_pressure u.prompt_tokens maxTokens ratio level]
  | none => effects

theorem handleStreaming_stream_end_eq (R : Recurse) (now sid : Nat) (c : Context)
    (message : ChatMessage) (usage : Option Usage) :
    handleStreaming R now sid c (.stream_end message usage) [] =
      (match message.tool_calls with
       | some tcs =>
           if tcs.length > 0 then
             { state := .executing_tools tcs 0, context := streamEndContext c message,
               effects := streamEndEffects c message usage }
           else
             transitionToPostTurn R now (streamEndContext c message)
               (streamEndEffects c message usage)
       | none =>
           transitionToPostTurn R now (streamEndContext c message)
             (streamEndEffects c message usage)) := rfl

theorem applyTagBroadcast_of_eq (s : State) (r : TransitionResult)
    (h : r.state.tag = s.tag) : applyTagBroadcast s r = r := by
  unfold applyTagBroadcast
  simp [h]

theorem applyTagBroadcast_of_ne (s : State) (r : TransitionResult)
    (h : r.state.tag ≠ s.tag) :
    applyTagBroadcast s r =
      { r with effects := r.effects ++
          [.broadcast_fsm_state r.state.tag r.context.turnNumber] } := by
  unfold applyTagBroadcast
  simp [h]

/-- When the `stream_end` message carries no tool calls, the transition is the
tag-broadcast wrapper around post-turn routing. -/
theorem transition_stream_end_noTools (now sid : Nat) (c : Context)
    (message : ChatMessage) (usage : Option Usage)
    (hnt : message.tool_calls = none ∨ message.tool_calls = some []) :
    transition now (.streaming sid) c (.stream_end message usage) =
      applyTagBroadcast (.streaming sid)
        (transitionToPostTurn transition2 now (streamEndContext c message)
          (streamEndEffects c message usage)) := by
  simp only [transition, transitionStep]
  rw [handleStreaming_stream_end_eq]
  rcases hnt with h | h <;> rw [h]
  rfl

/-- The effects accumulated by `stream_end` are persists/broadcasts/pressure
updates only — no routing effects. -/
theorem streamEndEffects_no_routing (c : Context) (message : ChatMessage)
    (usage : Option Usage) :
    Effect.start_stream ∉ streamEndEffects c message usage ∧
    Effect.wait_for_step ∉ streamEndEffects c message usage ∧
    (∀ d, Effect.schedule_delay d ∉ streamEndEffects c message usage) := by
  unfold streamEndEffects
  repeat' split
  all_goals simp

/-- Full evaluation of a re-entered idle `user_message`. -/
theorem transition2_idle_user_message_eq (now : Nat) (c : Context) (m : String) :
    transition2 now .idle c (.user_message m) =
      { state := .streaming now
        context := { c with
          messages := c.messages ++ [{ role := .user, content := m }]
          consecutiveErrors := 0
          turnNumber := c.turnNumber + 1
          currentResponse := { content := "", reasoning := "" } }
        effects :=
          [.save_message "user" m none none,
           .broadcast_message "user" m none none,
           .check_context_pressure,
           .start_stream,
           .broadcast_fsm_state "streaming" (c.turnNumber + 1)] } := by
  unfold transition2 transitionStep
  simp [handleIdle, applyTagBroadcast, State.tag]

/-- The top-level `transition` and the depth-1 level agree on re-entry targets
(the handlers for these two events never use their re-entry argument). -/
theorem transition_eq_transition2_idle_user (now : Nat) (c : Context) (m : String) :
    transition now .idle c (.user_message m) = transition2 now .idle c (.user_message m) := rfl

theorem transition_eq_transition2_idle_tick (now : Nat) (c : Context) :
    transition now .idle c .autonomous_tick = transition2 now .idle c .autonomous_tick := rfl

/-- **C7.** Post-turn routing: when a turn ends without tool calls, the
outcome is decided in order — a queued user message is dequeued and processed
exactly as an idle `user_message`; else conversational mode returns to `idle`
with no routing effects; else `delay = infinite` emits `wait_for_step` and
moves to `waiting_step`; else `delay > 0` emits `schedule_delay(delay·1000)`
and moves to `waiting_delay`; else an `autonomous_tick` is synthesized
immediately. -/
theorem transitionToPostTurn_spec (now sid : Nat) (c : Context) (msg : ChatMessage)
    (usage : Option Usage) (hnt : msg.tool_calls = none ∨ msg.tool_calls = some []) :
    (∀ m rest, c.queuedUserMessages = m :: rest →
        transition now (.streaming sid) c (.stream_end msg usage) =
          transition now .idle
            { c with
              messages := c.messages ++ [msg]
              consecutiveErrors := 0
              queuedUserMessages := rest } (.user_message m)) ∧
    (c.queuedUserMessages = [] → c.mode = .conversational →
        (transition now (.streaming sid) c (.stream_end msg usage)).state = .idle ∧
        (transition now (.streaming sid) c (.stream_end msg usage)).context =
          streamEndContext c msg ∧
        Effect.start_stream ∉
          (transition now (.streaming sid) c (.stream_end msg usage)).effects ∧
        Effect.wait_for_step ∉
          (transition now (.streaming sid) c (.stream_end msg usage)).effects ∧
        (∀ d, Effect.schedule_delay d ∉
          (transition now (.streaming sid) c (.stream_end msg usage)).effects)) ∧
    (c.queuedUserMessages = [] → c.mode = .autonomous → c.delay = .infinite →
        (transition now (.streaming sid) c (.stream_end msg usage)).state = .waiting_step ∧
        (transition now (.streaming sid) c (.stream_end msg usage)).context =
          streamEndContext c msg ∧
        Effect.wait_for_step ∈
          (transition now (.streaming sid) c (.stream_end msg usage)).effects) ∧
    (∀ d : Int, c.queuedUserMessages = [] → c.mode = .autonomous → c.delay = .num d →
      d > 0 →
        (transition now (.streaming sid) c (.stream_end msg usage)).state =
          .waiting_delay (d * 1000) ∧
        (transition now (.streaming sid) c (.stream_end msg usage)).context =
          streamEndContext c msg ∧
        Effect.schedule_delay (d * 1000) ∈
          (transition now (.streaming sid) c (.stream_end msg usage)).effects) ∧
    (∀ d : Int, c.queuedUserMessages = [] → c.mode = .autonomous → c.delay = .num d →
      ¬ d > 0 →
        transition now (.streaming sid) c (.stream_end msg usage) =
          transition now .idle (streamEndContext c msg) .autonomous_tick) := by
  have hT := transition_stream_end_noTools now sid c msg usage hnt
  have hq' : ∀ (x : List String), c.queuedUserMessages = x →
      (streamEndContext c msg).queuedUserMessages = x := fun x hx => hx
  refine ⟨?_, ?_, ?_, ?_, ?_⟩
  · intro m rest hq
    rw [hT, transition_eq_transition2_idle_user]
    unfold transitionToPostTurn
    rw [hq' _ hq]
    dsimp only
    rw [transition2_idle_user_message_eq, transition2_idle_user_message_eq]
    rw [applyTagBroadcast_of_eq _ _ (by rfl)]
    simp [streamEndContext]
  · intro hq hmode
    rw [hT]
    unfold transitionToPostTurn
    rw [hq' _ hq]
    dsimp only
    have hm : (streamEndContext c msg).mode = .conversational := hmode
    rw [if_pos hm, applyTagBroadcast_of_ne _ _ (by simp [State.tag])]
    obtain ⟨h1, h2, h3⟩ := streamEndEffects_no_routing c msg usage
    refine ⟨rfl, rfl, ?_, ?_, ?_⟩
    · simp [h1]
    · simp [h2]
    · intro d
      simp [h3 d]
  · intro hq hmode hdelay
    rw [hT]
    unfold transitionToPostTurn
    rw [hq' _ hq]
    dsimp only
    have hm : ¬ (streamEndContext c msg).mode = .conversational := by
      intro hcontra
      rw [show (streamEndContext c msg).mode = c.mode from rfl, hmode] at hcontra
      cases hcontra
    rw [if_neg hm]
    have hd : (streamEndContext c msg).delay = .infinite := hdelay
    rw [hd]
    dsimp only
    rw [applyTagBroadcast_of_ne _ _ (by simp [State.tag])]
    refine ⟨rfl, rfl, ?_⟩
    simp
  · intro d hq hmode hdelay hpos
    rw [hT]
    unfold transitionToPostTurn
    rw [hq' _ hq]
    dsimp only
    have hm : ¬ (streamEndContext c msg).mode = .conversational := by
      intro hcontra
      rw [show (streamEndContext c msg).mode = c.mode from rfl, hmode] at hcontra
      cases hcontra
    rw [if_neg hm]
    have hd : (streamEndContext c msg).delay = .num d := hdelay
    rw [hd]
    dsimp only
    rw [if_pos hpos, applyTagBroadcast_of_ne _ _ (by simp [State.tag])]
    refine ⟨rfl, rfl, ?_⟩
    simp
  · intro d hq hmode hdelay hpos
    rw [hT, transition_eq_transition2_idle_tick]
    unfold transitionToPostTurn
    rw [hq' _ hq]
    dsimp only
    have hm : ¬ (streamEndContext c msg).mode = .conversational := by
      intro hcontra
      rw [show (streamEndContext c msg).mode = c.mode from rfl, hmode] at hcontra
      cases hcontra
    rw [if_neg hm]
    have hd : (streamEndContext c msg).delay = .num d := hdelay
    rw [hd]
    dsimp only
    rw [if_neg hpos]
    rw [applyTagBroadcast_of_eq]
    unfold transition2 transitionStep
    rw [applyTagBroadcast_state]
    simp only [handleIdle]
    have hm2 : ¬ (streamEndContext c msg).mode ≠ .autonomous := by
      simp [show (streamEndContext c msg).mode = c.mode from rfl, hmode]
    rw [if_neg hm2]
    split <;> rfl

/-- Witness for **C7** at a concrete autonomous context with delay 3. -/
theorem transitionToPostTurn_spec_witness :
    ({ createContext [] with mode := .autonomous, delay := .num 3 } : Context).queuedUserMessages = [] ∧
    ((transition 0 (.streaming 0)
        { createContext [] with mode := .autonomous, delay := .num 3 }
        (.stream_end { role := .assistant, content := "ok" } none)).state =
          .waiting_delay (3 * 1000) ∧
     (transition 0 (.streaming 0)
        { createContext [] with mode := .autonomous, delay := .num 3 }
        (.stream_end { role := .assistant, content := "ok" } none)).context =
          streamEndContext { createContext [] with mode := .autonomous, delay := .num 3 }
            { role := .assistant, content := "ok" } ∧
     Effect.schedule_delay (3 * 1000) ∈
       (transition 0 (.streaming 0)
          { createContext [] with mode := .autonomous, delay := .num 3 }
          (.stream_end { role := .assistant, content := "ok" } none)).effects) :=
  ⟨by decide,
   (transitionToPostTurn_spec 0 0
      { createContext [] with mode := .autonomous, delay := .num 3 }
      { role := .assistant, content := "ok" } none (Or.inl rfl)).2.2.2.1 3
      (by decide) (by decide) (by decide) (by decide)⟩

/-! ## Claim C8: user messages while busy -/

/-- **C8 (counterexample).** In the `waiting_delay` state a `user_message` is
*not* enqueued: the source processes it immediately as an idle user message,
so the queue stays empty. -/
theorem user_message_enqueue_counterexample :
    (transition 0 (.waiting_delay 5000) (createContext [])
        (.user_message "hi")).context.queuedUserMessages ≠
      ["hi"] := by
  decide

/-- **C8 (amended).** A `user_message` arriving in `streaming` or
`executing_tools` is appended to `queuedUserMessages` (state and messages
unchanged, no effects); in `waiting_delay` and `waiting_step` it is instead
processed immediately, exactly as an idle `user_message` except for one extra
`broadcast_fsm_state` effect from the outer wrapper.  A queued message is
consumed at the next post-turn routing or `autonomous_tick`: it is dequeued,
appended to the window as a user message, and persisted. -/
theorem user_message_queueing_spec (now sid : Nat) (tcs : List ToolCall) (i : Nat)
    (d : Int) (c : Context) (m : String) :
    (transition now (.streaming sid) c (.user_message m) =
      { state := .streaming sid
        context := { c with queuedUserMessages := c.queuedUserMessages ++ [m] }
        effects := [] }) ∧
    (transition now (.executing_tools tcs i) c (.user_message m) =
      { state := .executing_tools tcs i
        context := { c with queuedUserMessages := c.queuedUserMessages ++ [m] }
        effects := [] }) ∧
    (transition now (.waiting_delay d) c (.user_message m) =
      { transition now .idle c (.user_message m) with
        effects := (transition now .idle c (.user_message m)).effects ++
          [.broadcast_fsm_state "streaming" (c.turnNumber + 1)] }) ∧
    (transition now .waiting_step c (.user_message m) =
      { transition now .idle c (.user_message m) with
        effects := (transition now .idle c (.user_message m)).effects ++
          [.broadcast_fsm_state "streaming" (c.turnNumber + 1)] }) ∧
    (∀ msg usage rest, (msg : ChatMessage).tool_calls = none →
      c.queuedUserMessages = m :: rest →
        (transition now (.streaming sid) c (.stream_end msg usage)).context.messages =
          c.messages ++ [msg] ++ [{ role := .user, content := m }] ∧
        (transition now (.streaming sid) c
            (.stream_end msg usage)).context.queuedUserMessages = rest ∧
        Effect.save_message "user" m none none ∈
          (transition now (.streaming sid) c (.stream_end msg usage)).effects) ∧
    (∀ rest, c.mode = .autonomous → c.queuedUserMessages = m :: rest →
        (transition now .idle c .autonomous_tick).context.messages =
          c.messages ++ [{ role := .user, content := m }] ∧
        (transition now .idle c .autonomous_tick).context.queuedUserMessages = rest ∧
        Effect.save_message "user" m none none ∈
          (transition now .idle c .autonomous_tick).effects) := by
  refine ⟨?_, ?_, ?_, ?_, ?_, ?_⟩
  · simp [transition, transitionStep, handleStreaming, applyTagBroadcast, State.tag]
  · simp [transition, transitionStep, handleExecutingTools, applyTagBroadcast, State.tag]
  · rw [transition_eq_transition2_idle_user, transition2_idle_user_message_eq]
    simp only [transition, transitionStep, handleWaitingDelay]
    rw [transition2_idle_user_message_eq,
      applyTagBroadcast_of_ne _ _ (by simp [State.tag])]
    rfl
  · rw [transition_eq_transition2_idle_user, transition2_idle_user_message_eq]
    simp only [transition, transitionStep, handleWaitingStep]
    rw [transition2_idle_user_message_eq,
      applyTagBroadcast_of_ne _ _ (by simp [State.tag])]
    rfl
  · intro msg usage rest hnt hq
    have h1 := (transitionToPostTurn_spec now sid c msg usage (Or.inl hnt)).1 m rest hq
    rw [h1, transition_eq_transition2_idle_user, transition2_idle_user_message_eq]
    refine ⟨?_, rfl, ?_⟩
    · simp
    · simp
  · intro rest hmode hq
    have hmode' : ¬ c.mode ≠ Mode.autonomous := by simp [hmode]
    simp only [transition, transitionStep, handleIdle, if_neg hmode', hq]
    rw [applyTagBroadcast_of_ne _ _ (by simp [State.tag])]
    refine ⟨rfl, rfl, ?_⟩
    simp

/-- A concrete autonomous context with one queued user message. -/
def queuedCtx : Context :=
  { createContext [] with mode := .autonomous, queuedUserMessages := ["hi"] }

/-- Witness for **C8 (amended)**: a queued "hi" is consumed by an
`autonomous_tick`. -/
theorem user_message_queueing_spec_witness :
    queuedCtx.mode = .autonomous ∧
    ((transition 0 .idle queuedCtx .autonomous_tick).context.messages =
      queuedCtx.messages ++ [{ role := .user, content := "hi" }] ∧
     (transition 0 .idle queuedCtx .autonomous_tick).context.queuedUserMessages = [] ∧
     Effect.save_message "user" "hi" none none ∈
       (transition 0 .idle queuedCtx .autonomous_tick).effects) :=
  ⟨by decide,
   (user_message_queueing_spec 0 0 [] 0 0 queuedCtx "hi").2.2.2.2.2 []
     (by decide) (by decide)⟩

/-! ## Claim C3: pressure classification and the usage broadcast -/

theorem applyTagBroadcast_effects_mem (s : State) (r : TransitionResult) (e : Effect)
    (he : e ∈ (applyTagBroadcast s r).effects) :
    e ∈ r.effects ∨ ∃ tg n, e = .broadcast_fsm_state tg n := by
  unfold applyTagBroadcast at he
  split at he
  · simp only [List.mem_append, List.mem_singleton] at he
    rcases he with h | h
    · exact Or.inl h
    · exact Or.inr ⟨_, _, h⟩
  · exact Or.inl he

theorem transition2_idle_tick_effects_mem (now : Nat) (c : Context) (e : Effect)
    (he : e ∈ (transition2 now .idle c .autonomous_tick).effects) :
    (∃ s ct, e = .save_message s ct none none) ∨
    (∃ s ct, e = .broadcast_message s ct none none) ∨
    e = .check_context_pressure ∨ e = .start_stream ∨
    (∃ tg n, e = .broadcast_fsm_state tg n) := by
  unfold transition2 transitionStep at he
  rcases applyTagBroadcast_effects_mem _ _ _ he with h | h
  · simp only [handleIdle] at h
    repeat' split at h
    all_goals simp_all
    all_goals first
      | tauto
      | aesop
  · tauto

theorem streamEndEffects_update_mem (c : Context) (msg : ChatMessage)
    (usage : Option Usage) (t mx : Nat) (q : ℚ) (l : PressureLevel)
    (he : Effect.update_context_pressure t mx q l ∈ streamEndEffects c msg usage) :
    ∃ u, usage = some u ∧ t = u.prompt_tokens ∧ mx = 128000 ∧
      q = (u.prompt_tokens : ℚ) / ((128000 : Nat) : ℚ) ∧
      l = (if (u.prompt_tokens : ℚ) / ((128000 : Nat) : ℚ) ≥ 9/10 then PressureLevel.hard
           else if (u.prompt_tokens : ℚ) / ((128000 : Nat) : ℚ) ≥ 7/10 then PressureLevel.soft
           else PressureLevel.normal) := by
  unfold streamEndEffects at he
  repeat' split at he
  all_goals simp_all

theorem transitionToPostTurn_update_mem (now : Nat) (c : Context) (fx : List Effect)
    (t mx : Nat) (q : ℚ) (l : PressureLevel)
    (he : Effect.update_context_pressure t mx q l ∈
      (transitionToPostTurn transition2 now c fx).effects) :
    Effect.update_context_pressure t mx q l ∈ fx := by
  unfold transitionToPostTurn at he
  split at he
  · rw [transition2_idle_user_message_eq] at he
    simp at he
  · split at he
    · exact he
    · split at he
      · simp only [List.mem_append, List.mem_singleton] at he
        rcases he with h | h
        · exact h
        · cases h
      · split at he
        · simp only [List.mem_append, List.mem_singleton] at he
          rcases he with h | h
          · exact h
          · cases h
        · rcases transition2_idle_tick_effects_mem now c _ he with h | h | h | h | h <;>
            simp_all

/-- Every `update_context_pressure` effect a `stream_end` transition emits
carries the usage's prompt-token count over the fixed 128000, with the
three-valued level formula. -/
theorem stream_end_update_characterization (now sid : Nat) (c : Context)
    (msg : ChatMessage) (usage : Option Usage) (t mx : Nat) (q : ℚ)
    (l : PressureLevel)
    (he : Effect.update_context_pressure t mx q l ∈
      (transition now (.streaming sid) c (.stream_end msg usage)).effects) :
    ∃ u, usage = some u ∧ t = u.prompt_tokens ∧ mx = 128000 ∧
      q = (u.prompt_tokens : ℚ) / ((128000 : Nat) : ℚ) ∧
      l = (if (u.prompt_tokens : ℚ) / ((128000 : Nat) : ℚ) ≥ 9/10 then PressureLevel.hard
           else if (u.prompt_tokens : ℚ) / ((128000 : Nat) : ℚ) ≥ 7/10 then PressureLevel.soft
           else PressureLevel.normal) := by
  simp only [transition, transitionStep] at he
  rw [handleStreaming_stream_end_eq] at he
  rcases applyTagBroadcast_effects_mem _ _ _ he with h | h
  · revert h
    split
    · split
      · intro h
        exact streamEndEffects_update_mem c msg usage t mx q l h
      · intro h
        exact streamEndEffects_update_mem c msg usage t mx q l
          (transitionToPostTurn_update_mem now _ _ t mx q l h)
    · intro h
      exact streamEndEffects_update_mem c msg usage t mx q l
        (transitionToPostTurn_update_mem now _ _ t mx q l h)
  · obtain ⟨tg, n, h⟩ := h
    cases h

/-- **C3 (counterexample).** At actual prompt-token usage 140800 over the
fixed 128000 (ratio 1.1) the pressure broadcast carries level `hard`, not
`overflow`: the usage-based classification in `stream_end` has no overflow
level. -/
theorem pressure_broadcast_counterexample :
    ((140800 : ℚ) / ((128000 : Nat) : ℚ) ≥ 11/10) ∧
    (transition 0 (.streaming 0) (createContext [])
        (.stream_end { role := .assistant, content := "" }
          (some { prompt_tokens := 140800, completion_tokens := 0,
                  total_tokens := 140800 }))).effects =
      [.update_context_pressure 140800 128000 ((140800 : ℚ) / ((128000 : Nat) : ℚ))
          .hard,
       .broadcast_fsm_state "idle" 0] := by
  constructor
  · norm_num
  · rw [transition_stream_end_noTools 0 0 (createContext [])
      { role := .assistant, content := "" }
      (some { prompt_tokens := 140800, completion_tokens := 0, total_tokens := 140800 })
      (Or.inl rfl)]
    have hfx : streamEndEffects (createContext []) { role := .assistant, content := "" }
        (some { prompt_tokens := 140800, completion_tokens := 0, total_tokens := 140800 }) =
        [.update_context_pressure 140800 128000
          ((140800 : ℚ) / ((128000 : Nat) : ℚ)) .hard] := by
      unfold streamEndEffects
      have h9 : ((140800 : Nat) : ℚ) / ((128000 : Nat) : ℚ) ≥ 9/10 := by norm_num
      simp [h9, createContext]
      intro h
      linarith
    unfold transitionToPostTurn
    rw [show (streamEndContext (createContext []) { role := .assistant, content := "" }).queuedUserMessages = [] from rfl]
    dsimp only
    rw [if_pos (show (streamEndContext (createContext []) { role := .assistant, content := "" }).mode = .conversational from rfl)]
    rw [applyTagBroadcast_of_ne _ _ (by simp [State.tag])]
    rw [hfx]
    rfl

/-- **C3 (amended).** The estimate-based classification
(`getContextPressure`) uses the configured context size `C` and satisfies the
four-bucket boundaries exactly: `normal` iff `r < 0.7`, `soft` iff
`0.7 ≤ r < 0.9`, `hard` iff `0.9 ≤ r < 1.1`, `overflow` iff `r ≥ 1.1`.  The
pressure broadcast computed from the Model's actual prompt-token usage
(`stream_end`) instead divides by a fixed 128000 (not the configured `C`) and
uses a three-valued scale: `normal` iff `r < 0.7`, `soft` iff
`0.7 ≤ r < 0.9`, `hard` iff `r ≥ 0.9`; it never reports `overflow`. -/
theorem pressure_classification_spec :
    (∀ (C : Nat) (w : List ChatMessage), 0 < C →
       (getContextPressure C w).tokens = estimateTotalTokens w ∧
       (getContextPressure C w).ratio = (estimateTotalTokens w : ℚ) / (C : ℚ) ∧
       ((getContextPressure C w).level = .normal ↔
          (getContextPressure C w).ratio < 7/10) ∧
       ((getContextPressure C w).level = .soft ↔
          7/10 ≤ (getContextPressure C w).ratio ∧ (getContextPressure C w).ratio < 9/10) ∧
       ((getContextPressure C w).level = .hard ↔
          9/10 ≤ (getContextPressure C w).ratio ∧ (getContextPressure C w).ratio < 11/10) ∧
       ((getContextPressure C w).level = .overflow ↔
          11/10 ≤ (getContextPressure C w).ratio)) ∧
    (∀ (now sid : Nat) (c : Context) (msg : ChatMessage) (usage : Option Usage)
       (t mx : Nat) (q : ℚ) (l : PressureLevel),
       Effect.update_context_pressure t mx q l ∈
         (transition now (.streaming sid) c (.stream_end msg usage)).effects →
       ∃ u, usage = some u ∧ t = u.prompt_tokens ∧ mx = 128000 ∧
         q = (u.prompt_tokens : ℚ) / ((128000 : Nat) : ℚ) ∧
         (l = .hard ↔ 9/10 ≤ q) ∧
         (l = .soft ↔ 7/10 ≤ q ∧ q < 9/10) ∧
         (l = .normal ↔ q < 7/10) ∧
         l ≠ .overflow) ∧
    (∀ (now sid : Nat) (c : Context) (msg : ChatMessage) (u : Usage),
       msg.tool_calls = none → c.queuedUserMessages = [] → c.mode = .conversational →
       Effect.update_context_pressure u.prompt_tokens 128000
           ((u.prompt_tokens : ℚ) / ((128000 : Nat) : ℚ))
           (if (u.prompt_tokens : ℚ) / ((128000 : Nat) : ℚ) ≥ 9/10 then PressureLevel.hard
            else if (u.prompt_tokens : ℚ) / ((128000 : Nat) : ℚ) ≥ 7/10 then PressureLevel.soft
            else PressureLevel.normal) ∈
         (transition now (.streaming sid) c (.stream_end msg (some u))).effects) := by
  refine ⟨?_, ?_, ?_⟩
  · intro C w hC
    refine ⟨rfl, rfl, ?_, ?_, ?_, ?_⟩ <;>
      (simp only [getContextPressure]
       split_ifs with h1 h2 h3 <;> simp_all <;>
        first
          | linarith
          | (rintro ⟨ha, hb⟩; linarith)
          | (constructor <;> linarith)
          | (intro hx; linarith))
  · intro now sid c msg usage t mx q l he
    obtain ⟨u, hu, ht, hmx, hq, hl⟩ := stream_end_update_characterization
      now sid c msg usage t mx q l he
    refine ⟨u, hu, ht, hmx, hq, ?_, ?_, ?_, ?_⟩ <;> rw [hl, ← hq] <;>
      split_ifs with ha hb <;> simp_all <;>
        first
          | linarith
          | (rintro ⟨hx, hy⟩; linarith)
          | (constructor <;> linarith)
          | (intro hx; linarith)
  · intro now sid c msg u hnt hq hmode
    rw [transition_stream_end_noTools now sid c msg (some u) (Or.inl hnt)]
    have hq2 : (streamEndContext c msg).queuedUserMessages = [] := hq
    have hm2 : (streamEndContext c msg).mode = .conversational := hmode
    unfold transitionToPostTurn
    rw [hq2]
    dsimp only
    rw [if_pos hm2, applyTagBroadcast_of_ne _ _ (by simp [State.tag])]
    simp only [streamEndEffects, List.mem_append]
    left
    right
    simp

/-- Witness for **C3 (amended)** at `C = 10` and a window whose estimated
ratio is exactly 1.1 (level `overflow` in the estimate-based classification). -/
theorem pressure_classification_spec_witness :
    0 < 10 ∧
    ((getContextPressure 10 [{ role := .user, content := "aaaaaaaaaaaaaaaaaaaaaaaaaaaa" }]).tokens =
       estimateTotalTokens [{ role := .user, content := "aaaaaaaaaaaaaaaaaaaaaaaaaaaa" }] ∧
     (getContextPressure 10 [{ role := .user, content := "aaaaaaaaaaaaaaaaaaaaaaaaaaaa" }]).ratio =
       ((estimateTotalTokens [{ role := .user, content := "aaaaaaaaaaaaaaaaaaaaaaaaaaaa" }] : Nat) : ℚ) / ((10 : Nat) : ℚ) ∧
     ((getContextPressure 10 [{ role := .user, content := "aaaaaaaaaaaaaaaaaaaaaaaaaaaa" }]).level = .normal ↔
       (getContextPressure 10 [{ role := .user, content := "aaaaaaaaaaaaaaaaaaaaaaaaaaaa" }]).ratio < 7/10) ∧
     ((getContextPressure 10 [{ role := .user, content := "aaaaaaaaaaaaaaaaaaaaaaaaaaaa" }]).level = .soft ↔
       7/10 ≤ (getContextPressure 10 [{ role := .user, content := "aaaaaaaaaaaaaaaaaaaaaaaaaaaa" }]).ratio ∧
       (getContextPressure 10 [{ role := .user, content := "aaaaaaaaaaaaaaaaaaaaaaaaaaaa" }]).ratio < 9/10) ∧
     ((getContextPressure 10 [{ role := .user, content := "aaaaaaaaaaaaaaaaaaaaaaaaaaaa" }]).level = .hard ↔
       9/10 ≤ (getContextPressure 10 [{ role := .user, content := "aaaaaaaaaaaaaaaaaaaaaaaaaaaa" }]).ratio ∧
       (getContextPressure 10 [{ role := .user, content := "aaaaaaaaaaaaaaaaaaaaaaaaaaaa" }]).ratio < 11/10) ∧
     ((getContextPressure 10 [{ role := .user, content := "aaaaaaaaaaaaaaaaaaaaaaaaaaaa" }]).level = .overflow ↔
       11/10 ≤ (getContextPressure 10 [{ role := .user, content := "aaaaaaaaaaaaaaaaaaaaaaaaaaaa" }]).ratio)) :=
  ⟨by decide,
   pressure_classification_spec.1 10
     [{ role := .user, content := "aaaaaaaaaaaaaaaaaaaaaaaaaaaa" }] (by decide)⟩

/-! ## Sessions and hard compaction (`src/db/messages.ts`, `src/agent/session.ts`)

The session table is modelled as a list of rows; SQLite's rowid assignment is
the explicit `nextId` argument of `startSession`, and `Date.now()` the
explicit `now`. -/

/-- `Session` row. -/
structure Session where
  id : Nat
  started_at : Nat
  handoff_summary : Option String
  ended_at : Option Nat
deriving DecidableEq, Repr

/-- `SELECT * FROM sessions WHERE ended_at IS NULL ORDER BY id DESC LIMIT 1`. -/
def selectCurrentSession (rows : List Session) : Option Session :=
  (rows.filter (fun s => s.ended_at = none)).foldl
    (fun acc s =>
      match acc with
      | none => some s
      | some a => if s.id > a.id then some s else some a)
    none

/-- `endCurrentSession()`: set `ended_at = now` on the current session, if
any. -/
def endCurrentSession (rows : List Session) (now : Nat) : List Session :=
  match selectCurrentSession rows with
  | none => rows
  | some cur =>
      rows.map (fun s => if s.id = cur.id then { s with ended_at := some now } else s)

/-- `startSession(handoffSummary?)`: insert an open session row, returning it. -/
def startSession (rows : List Session) (nextId now : Nat)
    (handoffSummary : Option String) : List Session × Session :=
  let newSession : Session :=
    { id := nextId, started_at := now, handoff_summary := handoffSummary,
      ended_at := none }
  (rows ++ [newSession], newSession)

/-- `formatSessionHandoff` (`src/agent/prompts.ts`). -/
def formatSessionHandoff (summary : String) : String :=
  "[Session Handoff]\nThis is a continuation of a previous session. Here's the context from before:\n\n" ++
  summary ++ "\n\nYou may continue from where you left off or start fresh."

/-- The warning `checkAndHandleContextPressure` appends at hard pressure. -/
def contextPressureWarning : String :=
  "[System Notice] Context pressure is becoming critical. You should persist any important information now using your tools (filesystem, notable) before context compaction occurs."

/-- What one call of `checkAndHandleContextPressure` does: the updated window,
the pressure broadcast, the messages appended to the durable log and
broadcast, and the compaction timer it starts (`setTimeout(…, 5000)`). -/
structure PressureCheckResult where
  messages : List ChatMessage
  broadcastTokens : Nat
  broadcastMaxTokens : Nat
  broadcastRatio : ℚ
  broadcastLevel : PressureLevel
  logAppends : List (String × String)
  broadcastMessages : List (String × String)
  compactionScheduledMs : Option Nat
deriving DecidableEq, Repr

/-- `checkAndHandleContextPressure` (`src/agent/session.ts`): broadcast the
estimated pressure; at `hard`, append the warning to log and window and
schedule compaction after 5000 ms; at `soft`, soft-compact the window behind
the first element; otherwise do nothing.  (`context.messages[0]!` on the
non-empty window is `messages.take 1`.) -/
def checkAndHandleContextPressure (C : Nat) (messages : List ChatMessage) :
    PressureCheckResult :=
  let pressure := getContextPressure C messages
  if pressure.level = .hard then
    { messages := messages ++ [{ role := .system, content := contextPressureWarning }]
      broadcastTokens := pressure.tokens
      broadcastMaxTokens := C
      broadcastRatio := pressure.ratio
      broadcastLevel := pressure.level
      logAppends := [("system", contextPressureWarning)]
      broadcastMessages := [("system", contextPressureWarning)]
      compactionScheduledMs := some 5000 }
  else if pressure.level = .soft then
    { messages := messages.take 1 ++ compactMessages (messages.drop 1)
      broadcastTokens := pressure.tokens
      broadcastMaxTokens := C
      broadcastRatio := pressure.ratio
      broadcastLevel := pressure.level
      logAppends := []
      broadcastMessages := []
      compactionScheduledMs := none }
  else
    { messages := messages
      broadcastTokens := pressure.tokens
      broadcastMaxTokens := C
      broadcastRatio := pressure.ratio
      broadcastLevel := pressure.level
      logAppends := []
      broadcastMessages := []
      compactionScheduledMs := none }

/-- `performCompaction` (`src/agent/session.ts`): compute the handoff
summary, end the current session, start a new one carrying the summary, reset
the window to `[system prompt, handoff]`, and append+broadcast the divider
naming the new session id.  Returns (new window, new session table, divider
message). -/
def performCompaction (systemPrompt : String) (rows : List Session)
    (nextId now : Nat) (messages : List ChatMessage) :
    List ChatMessage × List Session × (String × String) :=
  let summary := createHandoffSummary messages
  let rows1 := endCurrentSession rows now
  let (rows2, newSession) := startSession rows1 nextId now (some summary)
  ([{ role := .system, content := systemPrompt },
    { role := .system, content := formatSessionHandoff summary }],
   rows2,
   ("system", "--- Session " ++ Nat.repr newSession.id ++ " ---"))

/-! ## Claim C5: hard compaction -/

/-- **C5 (counterexample).** A window whose estimated tokens exceed
`0.9 · context_size` need not trigger the warning: with `C = 10` and a
28-character user message the estimate is 11 tokens (ratio 1.1 ≥ 1.1, level
`overflow`), and the pressure check appends nothing and schedules no
compaction. -/
theorem hard_compaction_counterexample :
    ((estimateTotalTokens [{ role := .user, content := "aaaaaaaaaaaaaaaaaaaaaaaaaaaa" }] : ℚ) >
      9/10 * ((10 : Nat) : ℚ)) ∧
    (checkAndHandleContextPressure 10
        [{ role := .user, content := "aaaaaaaaaaaaaaaaaaaaaaaaaaaa" }]).messages =
      [{ role := .user, content := "aaaaaaaaaaaaaaaaaaaaaaaaaaaa" }] ∧
    (checkAndHandleContextPressure 10
        [{ role := .user, content := "aaaaaaaaaaaaaaaaaaaaaaaaaaaa" }]).logAppends = [] ∧
    (checkAndHandleContextPressure 10
        [{ role := .user, content := "aaaaaaaaaaaaaaaaaaaaaaaaaaaa" }]).compactionScheduledMs =
      none := by
  have h : estimateTotalTokens
      [{ role := .user, content := "aaaaaaaaaaaaaaaaaaaaaaaaaaaa" }] = 11 := by decide
  have hlevel : (getContextPressure 10
      [{ role := .user, content := "aaaaaaaaaaaaaaaaaaaaaaaaaaaa" }]).level = .overflow := by
    simp only [getContextPressure, h]
    norm_num
  refine ⟨by rw [h]; norm_num, ?_, ?_, ?_⟩ <;>
    simp [checkAndHandleContextPressure, hlevel]

/-- **C5 (amended).** For a window whose estimated ratio lies in
`[0.9, 1.1)` (pressure level `hard`), the context-pressure check appends the
system warning to the durable log and to the window, broadcasts it, and
schedules compaction 5000 ms later; the compaction then marks the current
session ended, creates a new session row carrying the handoff summary, resets
the window to `[system_prompt, handoff(summary)]`, and appends+broadcasts a
system divider naming the new session id. -/
theorem hard_compaction_spec (C : Nat) (w : List ChatMessage)
    (h9 : 9/10 ≤ (estimateTotalTokens w : ℚ) / ((C : Nat) : ℚ))
    (h11 : (estimateTotalTokens w : ℚ) / ((C : Nat) : ℚ) < 11/10) :
    ((checkAndHandleContextPressure C w).messages =
       w ++ [{ role := .system, content := contextPressureWarning }] ∧
     (checkAndHandleContextPressure C w).logAppends =
       [("system", contextPressureWarning)] ∧
     (checkAndHandleContextPressure C w).broadcastMessages =
       [("system", contextPressureWarning)] ∧
     (checkAndHandleContextPressure C w).compactionScheduledMs = some 5000 ∧
     (checkAndHandleContextPressure C w).broadcastLevel = .hard) ∧
    (∀ (sysPrompt : String) (rows : List Session) (nextId now : Nat)
       (msgs : List ChatMessage),
       (performCompaction sysPrompt rows nextId now msgs).1 =
         [{ role := .system, content := sysPrompt },
          { role := .system,
            content := formatSessionHandoff (createHandoffSummary msgs) }] ∧
       (performCompaction sysPrompt rows nextId now msgs).2.1 =
         endCurrentSession rows now ++
           [{ id := nextId, started_at := now,
              handoff_summary := some (createHandoffSummary msgs),
              ended_at := none }] ∧
       (performCompaction sysPrompt rows nextId now msgs).2.2 =
         ("system", "--- Session " ++ Nat.repr nextId ++ " ---") ∧
       (∀ cur, selectCurrentSession rows = some cur →
          ∀ s ∈ endCurrentSession rows now, s.id = cur.id →
            s.ended_at = some now)) := by
  constructor
  · have hlevel : (getContextPressure C w).level = .hard := by
      simp only [getContextPressure]
      rw [if_neg (by push_neg; exact h11), if_pos h9]
    refine ?_
    simp only [checkAndHandleContextPressure, hlevel]
    norm_num
  · intro sysPrompt rows nextId now msgs
    refine ⟨rfl, rfl, rfl, ?_⟩
    intro cur hcur s hs hid
    unfold endCurrentSession at hs
    rw [hcur] at hs
    simp only [List.mem_map] at hs
    obtain ⟨t, ht, hts⟩ := hs
    by_cases htc : t.id = cur.id
    · rw [if_pos htc] at hts
      rw [← hts]
    · rw [if_neg htc] at hts
      rw [← hts] at hid
      exact absurd hid htc

/-- A 20-character user message gives 9 estimated tokens: ratio exactly 0.9
at `C = 10`. -/
def hardWindow : List ChatMessage :=
  [{ role := .user, content := "aaaaaaaaaaaaaaaaaaaa" }]

/-- Witness for **C5 (amended)** at `C = 10` and `hardWindow` (ratio 0.9). -/
theorem hard_compaction_spec_witness :
    (9/10 ≤ (estimateTotalTokens hardWindow : ℚ) / ((10 : Nat) : ℚ) ∧
     (estimateTotalTokens hardWindow : ℚ) / ((10 : Nat) : ℚ) < 11/10) ∧
    ((checkAndHandleContextPressure 10 hardWindow).messages =
       hardWindow ++ [{ role := .system, content := contextPressureWarning }] ∧
     (checkAndHandleContextPressure 10 hardWindow).compactionScheduledMs = some 5000) ∧
    (performCompaction "SP" [] 1 7 hardWindow).2.2 =
      ("system", "--- Session " ++ Nat.repr 1 ++ " ---") := by
  have h : estimateTotalTokens hardWindow = 9 := by decide
  have h9 : 9/10 ≤ (estimateTotalTokens hardWindow : ℚ) / ((10 : Nat) : ℚ) := by
    rw [h]; norm_num
  have h11 : (estimateTotalTokens hardWindow : ℚ) / ((10 : Nat) : ℚ) < 11/10 := by
    rw [h]; norm_num
  have hmain := hard_compaction_spec 10 hardWindow h9 h11
  exact ⟨⟨h9, h11⟩, ⟨hmain.1.1, hmain.1.2.2.2.1⟩,
    (hmain.2 "SP" [] 1 7 hardWindow).2.2.1⟩

/-! ## Background tasks (`src/db/messages.ts`)

The table is a list of rows; `crypto.randomUUID()` and `Date.now()` are
explicit arguments. -/

/-- `status ∈ {'running','completed','failed'}`. -/
inductive TaskStatus
  | running
  | completed
  | failed
deriving DecidableEq, Repr

/-- `BackgroundTask` row. -/
structure BackgroundTask where
  id : String
  tool_name : String
  input : String
  status : TaskStatus
  result : Option String
  error : Option String
  created_at : Nat
  completed_at : Option Nat
deriving DecidableEq, Repr

/-- `UPDATE background_tasks SET status = ?, result = ?, error = ?,
completed_at = ? WHERE id = ?` — an unconditional update of every row with
the given id; there is no status guard. -/
def updateBackgroundTask (db : List BackgroundTask) (status : TaskStatus)
    (result : Option String) (error : Option String) (completed_at : Nat)
    (id : String) : List BackgroundTask :=
  db.map (fun t =>
    if t.id = id then
      { t with
        status := status
        result := result
        error := error
        completed_at := some completed_at }
    else t)

/-- `createBackgroundTask(toolName, input)` — inserts a `running` row. -/
def createBackgroundTask (db : List BackgroundTask) (id : String)
    (toolName : String) (input : String) (now : Nat) : List BackgroundTask :=
  db ++
    [{ id := id
       tool_name := toolName
       input := input
       status := .running
       result := none
       error := none
       created_at := now
       completed_at := none }]

/-- `completeBackgroundTask(id, result)`. -/
def completeBackgroundTask (db : List BackgroundTask) (id : String)
    (result : String) (now : Nat) : List BackgroundTask :=
  updateBackgroundTask db .completed (some result) none now id

/-- `failBackgroundTask(id, error)`. -/
def failBackgroundTask (db : List BackgroundTask) (id : String)
    (error : String) (now : Nat) : List BackgroundTask :=
  updateBackgroundTask db .failed none (some error) now id

/-! ## Claim C2: terminal tasks are not final -/

/-- A task row already in the terminal `completed` state. -/
def doneTask : BackgroundTask :=
  { id := "t1"
    tool_name := "web_fetch"
    input := "{}"
    status := .completed
    result := some "r1"
    error := none
    created_at := 0
    completed_at := some 5 }

/-- **C2 (counterexample).** `completeBackgroundTask` on a task that is
already `completed` is *not* a no-op: it overwrites `result` and
`completed_at` (the source's UPDATE has no status guard). -/
theorem background_task_terminal_counterexample :
    completeBackgroundTask [doneTask] "t1" "r2" 9 ≠ [doneTask] := by
  decide

/-- **C2 (amended).** `completeBackgroundTask` / `failBackgroundTask`
unconditionally overwrite `status`, `result`, `error`, and `completed_at` of
every row with the given id, whatever its prior status — repeated or crossed
calls are last-write-wins, so terminal states are not final (a `completed`
task can become `failed`); rows with other ids are untouched. -/
theorem background_task_overwrite_spec (db : List BackgroundTask) (id : String)
    (resultStr errStr : String) (t₁ t₂ : Nat) :
    (∀ u ∈ completeBackgroundTask db id resultStr t₁,
       (u.id = id → u.status = .completed ∧ u.result = some resultStr ∧
         u.error = none ∧ u.completed_at = some t₁) ∧
       (u.id ≠ id → u ∈ db)) ∧
    (∀ u ∈ failBackgroundTask db id errStr t₂,
       (u.id = id → u.status = .failed ∧ u.result = none ∧
         u.error = some errStr ∧ u.completed_at = some t₂) ∧
       (u.id ≠ id → u ∈ db)) ∧
    (∀ u ∈ failBackgroundTask (completeBackgroundTask db id resultStr t₁) id errStr t₂,
       u.id = id → u.status = .failed ∧ u.result = none ∧
         u.error = some errStr ∧ u.completed_at = some t₂) := by
  refine ⟨?_, ?_, ?_⟩
  · intro u hu
    simp only [completeBackgroundTask, updateBackgroundTask, List.mem_map] at hu
    obtain ⟨t, ht, rfl⟩ := hu
    by_cases htc : t.id = id <;> simp_all
  · intro u hu
    simp only [failBackgroundTask, updateBackgroundTask, List.mem_map] at hu
    obtain ⟨t, ht, rfl⟩ := hu
    by_cases htc : t.id = id <;> simp_all
  · intro u hu hid
    simp only [failBackgroundTask, completeBackgroundTask, updateBackgroundTask,
      List.mem_map] at hu
    obtain ⟨t, ht, rfl⟩ := hu
    by_cases htc : t.id = id <;> simp_all

/-- Witness for **C2 (amended)**: the overwritten row after re-completing an
already-completed task. -/
theorem background_task_overwrite_spec_witness :
    ({ doneTask with result := some "r2", completed_at := some 9 } : BackgroundTask) ∈
      completeBackgroundTask [doneTask] "t1" "r2" 9 ∧
    ({ doneTask with result := some "r2", completed_at := some 9 } : BackgroundTask).id = "t1" ∧
    ({ doneTask with result := some "r2", completed_at := some 9 } : BackgroundTask).status =
      .completed :=
  ⟨by decide, by decide,
   (((background_task_overwrite_spec [doneTask] "t1" "r2" "e" 9 11).1
      { doneTask with result := some "r2", completed_at := some 9 }
      (by decide)).1 (by decide)).1⟩

/-! ## External injection (`src/server/routes.ts`) -/

/-- `InjectRequest` body (after successful JSON parsing). -/
structure InjectRequest where
  source : String
  content : String
deriving DecidableEq, Repr

/-- Observable outcome of `handleInject`: response status, error payload, and
the messages appended to the log and broadcast. -/
structure InjectOutcome where
  ok : Bool
  status : Nat
  error : Option String
  appended : List (String × String)
  broadcasted : List (String × String)
deriving DecidableEq, Repr

/-- `s.startsWith(p)` over the character sequences (kernel-evaluable, unlike
the byte-position-based library operation). -/
def jsStartsWith (s p : String) : Bool :=
  s.data.take p.data.length = p.data

/-- `handleInject` (`src/server/routes.ts`): reject when source or content is
falsy, reject when the source does not *start with* `external:`, otherwise
append and broadcast the message. -/
def handleInject (body : InjectRequest) : InjectOutcome :=
  if body.source = "" || body.content = "" then
    { ok := false, status := 400, error := some "Missing source or content",
      appended := [], broadcasted := [] }
  else if ¬ jsStartsWith body.source "external:" then
    { ok := false, status := 400,
      error := some "Source must start with \"external:\"",
      appended := [], broadcasted := [] }
  else
    { ok := true, status := 200, error := none,
      appended := [(body.source, body.content)],
      broadcasted := [(body.source, body.content)] }

/-- The specification's acceptance pattern, `^external:[^\s]+$`, written out:
the source starts with `external:` and the remainder is a non-empty run of
non-whitespace characters.  (This follows the spec's words, for comparison
with `handleInject`, which is translated from the source.) -/
def specExternalSourcePattern (s : String) : Bool :=
  jsStartsWith s "external:" &&
    (let rest := s.data.drop ("external:".data.length)
     rest ≠ [] && rest.all (fun ch => !ch.isWhitespace))

/-! ## Claim C9: the external-injection contract -/

/-- **C9 (counterexample).** `handleInject` accepts the source
`"external:a b"` (it only checks the `external:` prefix), although that
source does not match the spec's pattern `^external:[^\s]+$`. -/
theorem handleInject_pattern_counterexample :
    (handleInject { source := "external:a b", content := "hi" }).ok = true ∧
    specExternalSourcePattern "external:a b" = false := by
  decide

/-- **C9 (amended).** `handleInject` accepts a request exactly when content
and source are non-empty and the source *starts with* `external:` (the spec's
stricter `^external:[^\s]+$` pattern is not enforced — the tail may be empty
or contain whitespace); every rejected request gets a 400 error response and
appends and broadcasts nothing. -/
theorem handleInject_spec (body : InjectRequest) :
    ((handleInject body).ok = true ↔
      (body.source ≠ "" ∧ body.content ≠ "" ∧
        jsStartsWith body.source "external:" = true)) ∧
    ((handleInject body).ok = true →
       (handleInject body).status = 200 ∧
       (handleInject body).appended = [(body.source, body.content)] ∧
       (handleInject body).broadcasted = [(body.source, body.content)]) ∧
    ((handleInject body).ok = false →
       (handleInject body).status = 400 ∧
       (handleInject body).appended = [] ∧
       (handleInject body).broadcasted = [] ∧
       (handleInject body).error ≠ none) := by
  unfold handleInject
  split_ifs with h1 h2 <;> simp_all <;> tauto

/-- Witness for **C9 (amended)** at an accepted and a rejected request. -/
theorem handleInject_spec_witness :
    ((handleInject { source := "external:cron", content := "tick" }).ok = true ∧
     (handleInject { source := "external:cron", content := "tick" }).appended =
       [("external:cron", "tick")]) ∧
    ((handleInject { source := "cron", content := "tick" }).ok = false ∧
     (handleInject { source := "cron", content := "tick" }).appended = []) :=
  ⟨⟨by decide,
    ((handleInject_spec { source := "external:cron", content := "tick" }).2.1
      (by decide)).2.1⟩,
   ⟨by decide,
    ((handleInject_spec { source := "cron", content := "tick" }).2.2
      (by decide)).2.1⟩⟩

/-! ## The `sleep` tool

Durations are JavaScript numbers; they are modelled as `ℚ` (exact for the
multiplications, `Math.min`, and `Math.floor` involved). -/

/-- `MAX_SLEEP_MS = 30 * 1000`. -/
def MAX_SLEEP_MS : ℚ := 30 * 1000

/-- `toMilliseconds(duration, unit)`; the `throw` on an unknown unit is
`none`. -/
def toMilliseconds (duration : ℚ) (unit : String) : Option ℚ :=
  if unit = "seconds" then some (duration * 1000)
  else if unit = "minutes" then some (duration * 60 * 1000)
  else if unit = "hours" then some (duration * 60 * 60 * 1000)
  else none

/-- `formatDuration(ms)`. -/
def formatDuration (ms : ℚ) : String :=
  let seconds := ⌊ms / 1000⌋
  if seconds < 60 then Int.repr seconds ++ " seconds"
  else
    let minutes := ⌊(seconds : ℚ) / 60⌋
    if minutes < 60 then Int.repr minutes ++ " minutes"
    else
      let hours := ⌊(minutes : ℚ) / 60⌋
      Int.repr hours ++ " hours"

/-- Outcome of a `sleep` invocation that is never interrupted. -/
inductive SleepOutcome
  | err (message : String)
  | done (effectiveMs : ℚ) (message : String)
deriving DecidableEq, Repr

/-- The `sleep` tool body on an uninterrupted run (the interrupt probe always
reports false).  The polling loop sleeps in ≤ 100 ms slices while
`elapsed < totalMs`, so its ideal elapsed time is `totalMs` (and 0 when
`totalMs ≤ 0`, since the loop body never runs); `none` models the propagated
`throw` from an unknown unit. -/
def sleep (duration : ℚ) (unit : String) : Option SleepOutcome :=
  if duration = 0 || unit = "" then -- JS falsiness of `!duration || !unit`
    some (.err "Error: duration and unit are required")
  else
    match toMilliseconds duration unit with
    | none => none
    | some requestedMs =>
        let totalMs := min requestedMs MAX_SLEEP_MS
        let wasCapped := requestedMs > MAX_SLEEP_MS
        let effectiveMs := max totalMs 0
        some (.done effectiveMs
          ("Sleep completed (" ++ formatDuration totalMs ++ ")" ++
            (if wasCapped then
              " (requested " ++ formatDuration requestedMs ++ ", capped at 30 seconds)"
             else "")))

/-! ## Claim C10: the 30-second sleep cap -/

/-- **C10.** For every valid positive duration and unit, an uninterrupted
`sleep` completes after exactly `min(requested, 30000)` milliseconds, and when
the request exceeds 30 seconds the completion message says it was capped at
30 seconds.  (The 30-second cap appears nowhere in the specification.) -/
theorem sleep_cap_spec (duration : ℚ) (unit : String)
    (hd : 0 < duration)
    (hu : unit = "seconds" ∨ unit = "minutes" ∨ unit = "hours") :
    ∃ requestedMs : ℚ,
      toMilliseconds duration unit = some requestedMs ∧
      0 < requestedMs ∧
      sleep duration unit =
        some (.done (min requestedMs MAX_SLEEP_MS)
          ("Sleep completed (" ++ formatDuration (min requestedMs MAX_SLEEP_MS) ++ ")" ++
            (if requestedMs > MAX_SLEEP_MS then
              " (requested " ++ formatDuration requestedMs ++ ", capped at 30 seconds)"
             else ""))) ∧
      (requestedMs > MAX_SLEEP_MS →
        ∀ message, sleep duration unit = some (.done (min requestedMs MAX_SLEEP_MS) message) →
          ∃ pre post, message = pre ++ "capped at 30 seconds" ++ post) := by
  have hd0 : ¬ duration = 0 := ne_of_gt hd
  have hmain : ∀ requestedMs : ℚ, toMilliseconds duration unit = some requestedMs →
      0 < requestedMs →
      sleep duration unit =
        some (.done (min requestedMs MAX_SLEEP_MS)
          ("Sleep completed (" ++ formatDuration (min requestedMs MAX_SLEEP_MS) ++ ")" ++
            (if requestedMs > MAX_SLEEP_MS then
              " (requested " ++ formatDuration requestedMs ++ ", capped at 30 seconds)"
             else ""))) := by
    intro requestedMs hreq hpos
    have hunit : ¬ unit = "" := by
      rcases hu with h | h | h <;> simp [h]
    unfold sleep
    rw [if_neg (by simp [hd0, hunit]), hreq]
    have hmax : max (min requestedMs MAX_SLEEP_MS) 0 = min requestedMs MAX_SLEEP_MS := by
      apply max_eq_left
      apply le_of_lt
      apply lt_min hpos
      unfold MAX_SLEEP_MS
      norm_num
    simp only [hmax]
  have hcap : ∀ (A B : String), ∃ pre post,
      A ++ (")" ++ (" (requested " ++ B ++ ", capped at 30 seconds)")) =
        pre ++ "capped at 30 seconds" ++ post := by
    intro A B
    refine ⟨A ++ ")" ++ " (requested " ++ B ++ ", ", ")", ?_⟩
    have hlit : (", capped at 30 seconds)" : String) =
        ", " ++ "capped at 30 seconds" ++ ")" := by decide
    rw [hlit]
    simp [String.append_assoc]
    rw [← String.append_assoc ")" " (requested "]
    have hfold : (")" : String) ++ " (requested " = ") (requested " := by decide
    rw [hfold]
  rcases hu with h | h | h <;> subst h <;>
    [refine ⟨duration * 1000, rfl, by positivity, hmain _ rfl (by positivity), ?_⟩;
     refine ⟨duration * 60 * 1000, rfl, by positivity, hmain _ rfl (by positivity), ?_⟩;
     refine ⟨duration * 60 * 60 * 1000, rfl, by positivity,
       hmain _ rfl (by positivity), ?_⟩] <;>
  · intro hgt message hmsg
    rw [hmain _ rfl (by positivity)] at hmsg
    simp only [Option.some.injEq, SleepOutcome.done.injEq] at hmsg
    rw [← hmsg.2, if_pos hgt, String.append_assoc]
    exact hcap _ _

/-- Witness for **C10**: a 60-second request. -/
theorem sleep_cap_spec_witness :
    (0 : ℚ) < 60 ∧
    ("seconds" = "seconds" ∨ "seconds" = "minutes" ∨ "seconds" = "hours") ∧
    (∃ requestedMs : ℚ,
      toMilliseconds 60 "seconds" = some requestedMs ∧
      0 < requestedMs ∧
      sleep 60 "seconds" =
        some (.done (min requestedMs MAX_SLEEP_MS)
          ("Sleep completed (" ++ formatDuration (min requestedMs MAX_SLEEP_MS) ++ ")" ++
            (if requestedMs > MAX_SLEEP_MS then
              " (requested " ++ formatDuration requestedMs ++ ", capped at 30 seconds)"
             else ""))) ∧
      (requestedMs > MAX_SLEEP_MS →
        ∀ message,
          sleep 60 "seconds" = some (.done (min requestedMs MAX_SLEEP_MS) message) →
          ∃ pre post, message = pre ++ "capped at 30 seconds" ++ post)) :=
  ⟨by norm_num, Or.inl rfl,
   sleep_cap_spec 60 "seconds" (by norm_num) (Or.inl rfl)⟩
